import Mathlib

/-!
Verification development for the trading-bot control plane.

Shallow embedding conventions:
* Python floats/Decimals are modelled as `ℚ`; machine integers as `Int`/`Nat`.
* DB tables are in-memory lists; append-only tables are lists grown at the tail,
  so the "latest row" (max id) is the last element.
* Fallible operations (exchange HTTP calls, raising DB inserts) are `Except`.
* Telemetry (metrics counters, Telegram messages, log lines) has no effect on
  any claim and is not modelled.
-/

namespace TradingBot

/-- Lowercase every character (Python `str.lower` on the ASCII strings involved). -/
def strLower (s : String) : String := ⟨s.data.map Char.toLower⟩

/-- Uppercase every character (Python `str.upper` on the ASCII strings involved). -/
def strUpper (s : String) : String := ⟨s.data.map Char.toUpper⟩

/-- Python slicing `s[:n]` (by code points, as in Python). -/
def strTake (s : String) (n : Nat) : String := ⟨s.data.take n⟩

/-- Python `str.strip()` over the char list (whitespace at both ends). -/
def strTrim (s : String) : String :=
  ⟨((s.data.dropWhile Char.isWhitespace).reverse.dropWhile Char.isWhitespace).reverse⟩

/-- Substring occurrence on char lists (Python `pat in hay`). -/
def hasSublist (pat : List Char) : List Char → Bool
  | [] => pat.isEmpty
  | c :: t => pat.isPrefixOf (c :: t) || hasSublist pat t

/-- Python `pat in s` for strings. -/
def strIn (pat s : String) : Bool := hasSublist pat.data s.data

/-! ## shared/domain/idempotency.py -/

/-- The characters removed by `normalize_symbol`'s replace loop. -/
def strippedChars : List Char := ['/', '-', ':', ' ']

/-- `normalize_symbol`: upper-case, strip, drop "/", "-", ":" and spaces. -/
def normalize_symbol (symbol : String) : String :=
  let s := strTrim (strUpper symbol)
  ⟨s.data.filter (fun c => !(strippedChars.contains c))⟩

def underscore : String := "_"

/-- `make_client_order_id`.  `sha1_hex` abstracts `hashlib.sha1(...).hexdigest()`
(the code only uses its first 10 hex chars, via `[:10]`); every theorem below is
proved for an arbitrary such function. -/
def make_client_order_id (sha1_hex : String → String) (action symbol : String)
    (kline_open_time_ms : Int) (strategy_tag : String) (max_len : Nat) : String :=
  let a := strTrim (strLower action)
  let sym := normalize_symbol symbol
  let base := a ++ underscore ++ strategy_tag ++ underscore ++ sym ++ underscore
      ++ toString kline_open_time_ms
  if base.length ≤ max_len then base
  else
    let h := strTake (sha1_hex base) 10
    let symShort := strTake sym 10
    strTake (a ++ underscore ++ strategy_tag ++ underscore ++ symShort ++ underscore
      ++ toString kline_open_time_ms ++ underscore ++ h) max_len

/-! ## shared/domain/enums.py -/

inductive OrderEventType
  | CREATED | SUBMITTED | FILLED | CANCELED | ERROR | RECONCILED
deriving DecidableEq

inductive Side
  | BUY | SELL
deriving DecidableEq

inductive ReasonCode
  | STRATEGY_SIGNAL | STRATEGY_EXIT | TAKE_PROFIT | STOP_LOSS
  | ADMIN_HALT | ADMIN_RESUME | ADMIN_UPDATE_CONFIG | EMERGENCY_EXIT
  | RECONCILE | DATA_SYNC | SYSTEM | AI_SELECT | AI_TRAIN
deriving DecidableEq

/-! ## shared/domain/events.py

`order_events` rows.  `payload_json` (an opaque JSON blob serialized with
`json.dumps`) is not modelled: no claim inspects it. -/

structure OrderEvent where
  trace_id : String
  service : String
  exchange : String
  symbol : String
  client_order_id : String
  exchange_order_id : Option String
  event_type : OrderEventType
  side : Side
  qty : ℚ
  price : Option ℚ
  status : String
  reason_code : ReasonCode
  reason : String
deriving DecidableEq

/-- The uniqueness key of the `order_events` constraint
(exchange, symbol, client_order_id, event_type). -/
def same_event_key (a b : OrderEvent) : Bool :=
  a.exchange == b.exchange && a.symbol == b.symbol
    && a.client_order_id == b.client_order_id && a.event_type == b.event_type

/-- The MariaDB duplicate-key error text for the `uq_client_order_event` unique index. -/
def uq_dup_msg : String := "Duplicate entry for key 'uq_client_order_event'"

/-- The raw `INSERT INTO order_events ...`: raises the duplicate-key error when a
row with the same (exchange, symbol, client_order_id, event_type) exists. -/
def order_events_insert (tbl : List OrderEvent) (e : OrderEvent) :
    Except String (List OrderEvent) :=
  if tbl.any (fun r => same_event_key r e) then .error uq_dup_msg else .ok (tbl ++ [e])

def dup_token : String := "duplicate"
def uq_new_name : String := "uq_client_order_event"
def uq_old_name : String := "uq_client_order"

/-- `append_order_event`: runs the insert and swallows duplicate-key errors on the
idempotency constraint (matched by substring on the lowered message, accepting both
the old and the new index name) as success. -/
def append_order_event (tbl : List OrderEvent) (e : OrderEvent) :
    Except String (List OrderEvent) :=
  match order_events_insert tbl e with
  | .ok t => .ok t
  | .error msg =>
    let m := strLower msg
    if strIn dup_token m && (strIn uq_new_name m || strIn uq_old_name m) then .ok tbl
    else .error msg

/-- Total wrapper used by the engine flows: in this model the only insert failure
is the duplicate-key error, which `append_order_event` already swallows, so the
error branch is unreachable. -/
def append_oe (tbl : List OrderEvent) (e : OrderEvent) : List OrderEvent :=
  match append_order_event tbl e with
  | .ok t => t
  | .error _ => tbl

/-! ## services/strategy_engine/main.py — pure helpers -/

/-- Python `abs` on the rationals (kernel-computable, unlike the lattice `|·|`). -/
def py_abs (q : ℚ) : ℚ := if q < 0 then -q else q

/-- `_clamp(v, lo, hi) = max(lo, min(hi, v))`. -/
def clamp (v lo hi : ℚ) : ℚ := max lo (min hi v)

/-- Python 3 `round` to an integer: round-half-to-even (banker's rounding). -/
def py_round_half_even (q : ℚ) : ℤ :=
  let f := ⌊q⌋
  let r := q - (f : ℚ)
  if r < 1/2 then f
  else if 1/2 < r then f + 1
  else if f % 2 = 0 then f else f + 1

/-- `leverage_from_score` (lines 445–454): clamp the score to [0,100], map it
linearly onto `[lo, hi]` with `lev = lo + int(round((hi - lo) * (s / 100.0)))`,
then clamp the result; `hi` is first raised to `lo` when `hi < lo`. -/
def leverage_from_score (lo hi : ℤ) (score : ℚ) : ℤ :=
  let hi2 := if hi < lo then lo else hi
  let s := clamp score 0 100
  let lev := lo + py_round_half_even (((hi2 : ℚ) - (lo : ℚ)) * (s / 100))
  max lo (min hi2 lev)

/-- A second definition following the spec's words for C7:
"leverage = round(lo + (hi−lo)·score/100) then clamp", read with the same
round-half-to-even rounding the implementation language uses. -/
def leverage_from_score_spec (lo hi : ℤ) (score : ℚ) : ℤ :=
  max lo (min hi (py_round_half_even ((lo : ℚ) + ((hi : ℚ) - (lo : ℚ)) * (score / 100))))

/-- `min_qty_from_min_margin_usdt` (lines 456–486): quantity needed so the
notional (price × qty) reaches `min_margin_usdt × leverage`, with the final
division rounded upwards at the 6th (in general `precision`-th) decimal. -/
def min_qty_from_min_margin_usdt (min_margin_usdt last_price : ℚ) (leverage : ℤ)
    (precision : Nat) : ℚ :=
  if last_price ≤ 0 then 0
  else
    let lev : ℤ := max 1 leverage
    let notional_min : ℚ := min_margin_usdt * (lev : ℚ)
    let q := notional_min / last_price
    if q ≤ 0 then 0
    else
      let factor : ℚ := (10 : ℚ) ^ precision
      (⌈q * factor⌉ : ℚ) / factor

/-! ## Latest cached bar (the row returned by `latest_cache`)

`latest_cache` joins `market_data` (whose `close_price` column is non-null by
schema) with `market_data_cache` (whose indicator columns are nullable).
`features_json` carries the feature dict written by the data syncer; only the
keys read by `_vectorize_for_ai` are modelled. -/

structure FeatMap where
  atr14 : Option ℚ
  adx14 : Option ℚ
  plus_di14 : Option ℚ
  minus_di14 : Option ℚ
  bb_width20 : Option ℚ
  vol_ratio : Option ℚ
  mom10 : Option ℚ
  ret1 : Option ℚ
  ret_std20 : Option ℚ
deriving DecidableEq

structure LatestBar where
  open_time_ms : ℤ
  close_price : ℚ
  ema_fast : Option ℚ
  ema_slow : Option ℚ
  rsi : Option ℚ
  features : FeatMap
deriving DecidableEq

/-- `setup_b_signal` (lines 392–402). -/
def setup_b_signal (latest : LatestBar) : Option Side :=
  match latest.ema_fast, latest.ema_slow with
  | some f, some s =>
    let rsiOk := match latest.rsi with
      | none => true
      | some r => decide (r < 70)
    if s < f ∧ rsiOk = true then some Side.BUY
    else if f < s then some Side.SELL
    else none
  | _, _ => none

/-! ## compute_robot_score over raw dict values

`compute_robot_score` guards against arbitrary dict contents with a `try`.
A raw value is either a number or a non-numeric string (on which Python's
`float(...)` raises `ValueError`); an absent key is `none`. -/

inductive PyVal
  | num (q : ℚ)
  | nonNumStr (s : String)
deriving DecidableEq

/-- Python truthiness of the modelled values. -/
def py_truthy : PyVal → Bool
  | .num q => decide (q ≠ 0)
  | .nonNumStr s => decide (s ≠ "")

/-- Python `float(v)`: numbers convert, non-numeric strings raise. -/
def py_float : PyVal → Except Unit ℚ
  | .num q => .ok q
  | .nonNumStr _ => .error ()

/-- Python `latest.get(k) or default`: the default replaces both a missing key
and a falsy value (`None`, `0`, `""`). -/
def py_get_or (v : Option PyVal) (d : PyVal) : PyVal :=
  match v with
  | none => d
  | some x => if py_truthy x then x else d

structure RawLatest where
  close_price : Option PyVal
  ema_fast : Option PyVal
  ema_slow : Option PyVal
  rsi : Option PyVal
deriving DecidableEq

/-- `compute_robot_score` (lines 407–443): 50 on a non-positive/absent price,
absent EMA, or any failing conversion (the enclosing `try`); otherwise an
EMA-trend score plus an RSI-position score, clamped into [0,100]. -/
def compute_robot_score (latest : RawLatest) (signal : Side) : ℚ :=
  match py_float (py_get_or latest.close_price (.num 0)) with
  | .error _ => 50
  | .ok price =>
    if price ≤ 0 ∨ latest.ema_fast = none ∨ latest.ema_slow = none then 50
    else
      match latest.ema_fast, latest.ema_slow with
      | some vf, some vs =>
        match py_float vf, py_float vs with
        | .ok ema_fast_f, .ok ema_slow_f =>
          match (match latest.rsi with
                 | none => Except.ok (50 : ℚ)
                 | some vr => py_float vr) with
          | .ok rsi_f =>
            let diff_pct := py_abs (ema_fast_f - ema_slow_f) / price * 100
            let trend_score := clamp (diff_pct * 500) 0 50
            let rsi_score :=
              if signal = Side.BUY then clamp ((70 - rsi_f) / 40 * 50) 0 50
              else clamp ((rsi_f - 30) / 40 * 50) 0 50
            clamp (trend_score + rsi_score) 0 100
          | .error _ => 50
        | _, _ => 50
      | _, _ => 50

/-- View of a numeric `latest_cache` row as raw dict values (how the per-tick
loop hands the row to `compute_robot_score`). -/
def LatestBar.toRaw (l : LatestBar) : RawLatest :=
  { close_price := some (.num l.close_price)
    ema_fast := l.ema_fast.map .num
    ema_slow := l.ema_slow.map .num
    rsi := l.rsi.map .num }

/-! ## services/data_syncer/main.py — ATR/ADX portion of `compute_features_for_bars`

The ATR/ADX state (lines 102–117) reads only `high_price`, `low_price` and
`close_price` of each bar and none of the other indicator state, so it is
embedded as a standalone state machine mirroring lines 166–210 of the loop
body.  The remaining indicators (EMA/RSI/Bollinger/volume/momentum/returns) do
not feed ATR or ADX and are outside claim C9. -/

structure Bar where
  open_time_ms : ℤ
  open_price : ℚ
  high_price : ℚ
  low_price : ℚ
  close_price : ℚ
  volume : ℚ
deriving DecidableEq

/-- `deque(maxlen = cap)` append: drop from the front when over capacity. -/
def deque_push (cap : Nat) (l : List ℚ) (x : ℚ) : List ℚ :=
  let l2 := l ++ [x]
  if cap < l2.length then l2.drop (l2.length - cap) else l2

/-- True range of a bar given the previous close (line 173). -/
def tr_of (b : Bar) (prev_close : ℚ) : ℚ :=
  max (b.high_price - b.low_price)
    (max (py_abs (b.high_price - prev_close)) (py_abs (b.low_price - prev_close)))

/-- +DM of a bar given the previous high/low (lines 174–176). -/
def plus_dm_of (b : Bar) (prev_high prev_low : ℚ) : ℚ :=
  let up_move := b.high_price - prev_high
  let down_move := prev_low - b.low_price
  if down_move < up_move ∧ 0 < up_move then up_move else 0

/-- −DM of a bar given the previous high/low (lines 174–177). -/
def minus_dm_of (b : Bar) (prev_high prev_low : ℚ) : ℚ :=
  let up_move := b.high_price - prev_high
  let down_move := prev_low - b.low_price
  if up_move < down_move ∧ 0 < down_move then down_move else 0

/-- The update the code applies once seeded (lines 190–192):
`x_n = x_{n−1} − x_{n−1}/p + v_n` — Wilder's smoothed-*sum* form. -/
def wilder_sum_update (p : Nat) (prev v : ℚ) : ℚ := prev - prev / (p : ℚ) + v

/-- The spec's words for C9: the Wilder *average* recurrence
`x_n = (x_{n−1}·(p−1) + v_n)/p`. -/
def wilder_avg_update (p : Nat) (prev v : ℚ) : ℚ := (prev * ((p : ℚ) - 1) + v) / (p : ℚ)

structure AtrAdxState where
  prev_close : Option ℚ
  prev_high : Option ℚ
  prev_low : Option ℚ
  tr_list : List ℚ
  plus_dm_list : List ℚ
  minus_dm_list : List ℚ
  atr : Option ℚ
  plus_dm_s : Option ℚ
  minus_dm_s : Option ℚ
  dx_list : List ℚ
  adx : Option ℚ
deriving DecidableEq

def atr_adx_init : AtrAdxState :=
  { prev_close := none, prev_high := none, prev_low := none
    tr_list := [], plus_dm_list := [], minus_dm_list := []
    atr := none, plus_dm_s := none, minus_dm_s := none
    dx_list := [], adx := none }

/-- One loop iteration of `compute_features_for_bars` restricted to the ATR/ADX
state (lines 166–210 and the `prev_* = ...` updates at 235–237). -/
def atr_adx_step (atr_p adx_p : Nat) (s : AtrAdxState) (b : Bar) : AtrAdxState :=
  match s.prev_close, s.prev_high, s.prev_low with
  | some pc, some ph, some pl =>
    let tr := tr_of b pc
    let plus_dm := plus_dm_of b ph pl
    let minus_dm := minus_dm_of b ph pl
    let trl := deque_push atr_p s.tr_list tr
    let pdl := deque_push atr_p s.plus_dm_list plus_dm
    let mdl := deque_push atr_p s.minus_dm_list minus_dm
    let st1 :=
      if s.atr = none ∧ trl.length = atr_p then
        (some (trl.sum / (atr_p : ℚ)), some (pdl.sum / (atr_p : ℚ)), some (mdl.sum / (atr_p : ℚ)))
      else
        match s.atr with
        | some a =>
          (some (wilder_sum_update atr_p a tr),
           some (wilder_sum_update atr_p (s.plus_dm_s.getD 0) plus_dm),
           some (wilder_sum_update atr_p (s.minus_dm_s.getD 0) minus_dm))
        | none => (none, s.plus_dm_s, s.minus_dm_s)
    let atr2 := st1.1
    let pdms2 := st1.2.1
    let mdms2 := st1.2.2
    let st2 :=
      match atr2 with
      | some a =>
        if a ≠ 0 then
          let plus_di := 100 * (pdms2.getD 0 / a)
          let minus_di := 100 * (mdms2.getD 0 / a)
          let denom := plus_di + minus_di
          if denom ≠ 0 then
            let dx := 100 * py_abs (plus_di - minus_di) / denom
            let dxl := deque_push adx_p s.dx_list dx
            if s.adx = none ∧ dxl.length = adx_p then (dxl, some (dxl.sum / (adx_p : ℚ)))
            else
              match s.adx with
              | some ad => (dxl, some ((ad * ((adx_p : ℚ) - 1) + dx) / (adx_p : ℚ)))
              | none => (dxl, none)
          else (s.dx_list, s.adx)
        else (s.dx_list, s.adx)
      | none => (s.dx_list, s.adx)
    { prev_close := some b.close_price, prev_high := some b.high_price, prev_low := some b.low_price
      tr_list := trl, plus_dm_list := pdl, minus_dm_list := mdl
      atr := atr2, plus_dm_s := pdms2, minus_dm_s := mdms2
      dx_list := st2.1, adx := st2.2 }
  | _, _, _ =>
    { s with
      prev_close := some b.close_price
      prev_high := some b.high_price
      prev_low := some b.low_price }

/-- Run the ATR/ADX state machine over an ascending bar list (periods 14/14 in
the source defaults). -/
def atr_adx_run (atr_p adx_p : Nat) (bars : List Bar) : AtrAdxState :=
  bars.foldl (atr_adx_step atr_p adx_p) atr_adx_init

/-! ## Strategy-engine database state

`system_config` / `config_audit` / `order_events` / `position_snapshots` /
`trade_logs` as written by the engine; `latest_cache` reads over
`market_data` join `market_data_cache` are a read-only function of the state
(the engine never writes those tables). -/

def haltKey : String := "HALT_TRADING"
def emergencyKey : String := "EMERGENCY_EXIT"
def trueLit : String := "true"
def falseLit : String := "false"
def strategyService : String := "strategy-engine"
def statusCreatedLit : String := "CREATED"
def sFILLED : String := "FILLED"
def sCLOSED : String := "CLOSED"
def sCANCELED : String := "CANCELED"
def sCANCELLED : String := "CANCELLED"
def sREJECTED : String := "REJECTED"
def sEXPIRED : String := "EXPIRED"
def sERROR : String := "ERROR"
def sFAILED : String := "FAILED"
def noneLit : String := "None"
def actBuy : String := "buy"
def actSell : String := "sell"
def actSl : String := "sl"
def actExit : String := "exit"
def tagSb : String := "sb"
def noteEntered : String := "entered"
def noteExited : String := "exited"
def noteStopLoss : String := "stop_loss"
def noteEmergency : String := "emergency_exit"
def reasonSetupBuy : String := "Setup B BUY"
def reasonOrderPlaced : String := "Order placed"
def reasonSetupSell : String := "Setup B SELL"
def reasonEmerReq : String := "Emergency exit requested"
def reasonEmerExec : String := "Emergency exit executed"
def reasonStopCreated : String := "Hard stop loss: last <= stop"
def reasonStopExec : String := "Stop loss executed"
def reasonStopClose : String := "Hard stop loss triggered"
def reasonReconTerm : String := "Reconciled terminal status"
def reasonReconObs : String := "Reconciled order status"
def openReasonBuy : String := "Setup B BUY; robot; ai_prob; combined"
def aiAction : String := "AI_MODEL_UPDATE"
def aiReasonCode : String := "AI_TRAIN"
def aiReason : String := "AI model updated"

/-- A `config_audit` row (minus the DB-generated id/timestamp). -/
structure AuditRow where
  actor : String
  action : String
  cfg_key : String
  old_value : Option String
  new_value : String
  trace_id : String
  reason_code : String
  reason : String
deriving DecidableEq

def cfg_lookup (l : List (String × String)) (k : String) : Option String :=
  (l.find? (fun p => p.1 == k)).map (·.2)

/-- `INSERT ... ON DUPLICATE KEY UPDATE` on `system_config`. -/
def cfg_upsert (l : List (String × String)) (k v : String) : List (String × String) :=
  if l.any (fun p => p.1 == k) then l.map (fun p => if p.1 == k then (k, v) else p)
  else l ++ [(k, v)]

/-- The meta dict stored in `position_snapshots.meta_json`; only the keys the
engine reads or writes are modelled (`_parse_json_maybe` of a malformed blob,
which yields `{}`, corresponds to the all-`none` value). -/
structure PosMeta where
  stop_dist_pct : Option ℚ
  stop_price : Option ℚ
  trade_id : Option ℤ
  note : Option String
  trace_id : Option String
  robot_score : Option ℚ
  leverage : Option ℤ
deriving DecidableEq

def meta_empty : PosMeta :=
  { stop_dist_pct := none, stop_price := none, trade_id := none, note := none
    trace_id := none, robot_score := none, leverage := none }

structure PosSnap where
  symbol : String
  base_qty : ℚ
  avg_entry_price : Option ℚ
  meta : PosMeta
deriving DecidableEq

inductive TradeStatus
  | OPEN | CLOSED
deriving DecidableEq

/-- A `trade_logs` row; ids are positional (row i has id i+1).  `features_json`
is modelled by the `x` vector inside it (`features_x`), the only part the
engine reads back (for online training). -/
structure TradeLog where
  trace_id : String
  actor : String
  symbol : String
  side : Side
  qty : ℚ
  leverage : ℤ
  stop_dist_pct : ℚ
  stop_price : ℚ
  client_order_id : String
  exchange_order_id : Option String
  robot_score : ℚ
  ai_prob : Option ℚ
  open_reason_code : ReasonCode
  open_reason : String
  entry_time_ms : ℤ
  entry_price : Option ℚ
  exit_price : Option ℚ
  pnl : Option ℚ
  close_reason_code : Option ReasonCode
  close_reason : Option String
  exit_time_ms : Option ℤ
  label : Option ℤ
  status : TradeStatus
  features_x : List ℚ
deriving DecidableEq

structure Db where
  system_config : List (String × String)
  config_audit : List AuditRow
  order_events : List OrderEvent
  position_snapshots : List PosSnap
  trade_logs : List TradeLog
  latest : String → ℤ → Option LatestBar

/-- `get_flag` (lines 126–128): read a `system_config` value, defaulting, then
`.strip().lower()`. -/
def get_flag (db : Db) (key dflt : String) : String :=
  strLower (strTrim ((cfg_lookup db.system_config key).getD dflt))

/-- `set_flag` (lines 130–131): a bare upsert into `system_config` — note that
it touches no other table. -/
def set_flag (db : Db) (key value : String) : Db :=
  { db with system_config := cfg_upsert db.system_config key value }

/-- `write_system_config` (shared/domain/system_config.py lines 13–37): read the
old value, upsert `system_config`, and insert the paired `config_audit` row. -/
def write_system_config (db : Db) (actor key value trace_id reason_code reason action : String) :
    Db :=
  let old := cfg_lookup db.system_config key
  { db with
    system_config := cfg_upsert db.system_config key value
    config_audit := db.config_audit ++
      [{ actor := actor, action := action, cfg_key := key, old_value := old
         new_value := value, trace_id := trace_id, reason_code := reason_code
         reason := reason }] }

/-- Append to `order_events` through the idempotent writer. -/
def oe (db : Db) (e : OrderEvent) : Db :=
  { db with order_events := append_oe db.order_events e }

/-- Latest `position_snapshots` row for a symbol (`get_position`, max id). -/
def last_snapshot (l : List PosSnap) (symbol : String) : Option PosSnap :=
  (l.filter (fun p => p.symbol == symbol)).getLast?

/-- `save_position`: append a snapshot row. -/
def save_position (db : Db) (symbol : String) (base_qty : ℚ) (avg_entry_price : Option ℚ)
    (meta : PosMeta) : Db :=
  { db with position_snapshots := db.position_snapshots ++
      [{ symbol := symbol, base_qty := base_qty, avg_entry_price := avg_entry_price
         meta := meta }] }

/-- Latest snapshot `base_qty` for a symbol, 0 when there is none
(the per-symbol view of `get_latest_positions_map`). -/
def latest_qty (db : Db) (s : String) : ℚ :=
  match last_snapshot db.position_snapshots s with
  | some p => p.base_qty
  | none => 0

/-- `open_cnt` (line 553): symbols whose latest snapshot has `base_qty > 0`. -/
def open_count (db : Db) (symbols : List String) : ℕ :=
  (symbols.filter (fun s => decide (0 < latest_qty db s))).length

/-- Python `v or default` for an optional float: the default replaces both
`None` and a falsy `0`. -/
def or_default_q (v : Option ℚ) (d : ℚ) : ℚ :=
  match v with
  | none => d
  | some q => if q = 0 then d else q

/-! ## Exchange interface and tick environment -/

/-- `OrderResult` (shared/exchange/types.py); `raw` is an opaque payload and is
not modelled. -/
structure OrderResult where
  exchange_order_id : String
  status : String
  filled_qty : ℚ
  avg_price : Option ℚ
  fee_usdt : Option ℚ
  pnl_usdt : Option ℚ
deriving DecidableEq

/-- The per-tick environment: everything the tick consumes that is not the
modelled DB state.  Exchange calls can raise (`Except`); `sha1_hex` abstracts
`hashlib.sha1(...).hexdigest()`; `parse_model_seen`/`serialized_model` abstract
`OnlineLogisticRegression.from_dict(...)`/`to_dict` (only the update counter
`seen` is observable through the claims); `stale_rows` is the result of the
reconciliation query (its `created_at` age filter is not modelled). -/
structure Env where
  locks : String → Bool
  place_market_order : String → Side → ℚ → String → Except String OrderResult
  set_leverage_and_margin_mode : String → ℤ → Except String Unit
  get_order_status : String → String → Option String → Except String OrderResult
  stale_rows : List OrderEvent
  predict_proba : List ℚ → ℚ
  parse_model_seen : Option String → ℕ
  serialized_model : ℕ → String
  sha1_hex : String → String
  now_ms : ℤ
  trace_id : String
  reconcile_trace_id : String

/-- The engine `Settings` fields the tick reads. -/
structure StratSettings where
  exchange : String
  symbols : List String
  interval_minutes : ℤ
  strategy_tick_seconds : ℤ
  hard_stop_loss_pct : ℚ
  max_concurrent_positions : ℤ
  min_order_usdt : ℚ
  auto_leverage_min : ℤ
  auto_leverage_max : ℤ
  ai_enabled : Bool
  ai_weight : ℚ
  ai_model_key : String
  take_profit_reason_on_positive_pnl : Bool

/-- Selection metadata kept per candidate (`selected_open_meta` values). -/
structure CandMeta where
  robot_score : ℚ
  ai_prob : Option ℚ
  combined_score : ℚ
  features_x : List ℚ
deriving DecidableEq

/-- `_vectorize_for_ai` (lines 184–214): the 12-dim feature vector. -/
def vectorize_for_ai (latest : LatestBar) : List ℚ :=
  [or_default_q latest.ema_fast 0,
   or_default_q latest.ema_slow 0,
   or_default_q latest.rsi 50,
   latest.features.atr14.getD 0,
   latest.features.adx14.getD 0,
   latest.features.plus_di14.getD 0,
   latest.features.minus_di14.getD 0,
   latest.features.bb_width20.getD 0,
   latest.features.vol_ratio.getD 0,
   latest.features.mom10.getD 0,
   latest.features.ret1.getD 0,
   latest.features.ret_std20.getD 0]

/-! ## Trade-log operations -/

/-- `_open_trade_log` (lines 247–295): insert an OPEN row, returning its id. -/
def open_trade_log (env : Env) (db : Db) (symbol : String) (qty : ℚ) (lev : ℤ)
    (stop_dist_pct stop_price : ℚ) (client_order_id : String) (robot_score : ℚ)
    (ai_prob : Option ℚ) (open_reason_code : ReasonCode) (open_reason : String)
    (features_x : List ℚ) : Db × ℤ :=
  let row : TradeLog :=
    { trace_id := env.trace_id, actor := strategyService, symbol := symbol
      side := Side.BUY, qty := qty, leverage := lev, stop_dist_pct := stop_dist_pct
      stop_price := stop_price, client_order_id := client_order_id
      exchange_order_id := none, robot_score := robot_score, ai_prob := ai_prob
      open_reason_code := open_reason_code, open_reason := open_reason
      entry_time_ms := env.now_ms, entry_price := none, exit_price := none
      pnl := none, close_reason_code := none, close_reason := none
      exit_time_ms := none, label := none, status := TradeStatus.OPEN
      features_x := features_x }
  ({ db with trade_logs := db.trade_logs ++ [row] }, (db.trade_logs.length : ℤ) + 1)

/-- `_find_open_trade_id` (lines 318–326): `meta.trade_id` when positive, else
the latest OPEN `trade_logs` row for the symbol, else 0. -/
def find_open_trade_id (db : Db) (symbol : String) (meta : PosMeta) : ℤ :=
  let tid := meta.trade_id.getD 0
  if 0 < tid then tid
  else
    let idxs := (List.range db.trade_logs.length).filter fun i =>
      match db.trade_logs.get? i with
      | some t => t.symbol == symbol && t.status == TradeStatus.OPEN
      | none => false
    match idxs.getLast? with
    | some i => (i : ℤ) + 1
    | none => 0

/-- `_close_trade_and_train` (lines 329–390): close the row (deriving `pnl`
from prices when the venue gave none, and `label = 1 ↔ pnl > 0`), then — when
AI is enabled and the row carries a feature vector — `partial_fit` the model
loaded from `system_config` and persist it (with audit) every 10th update. -/
def close_trade_and_train (env : Env) (st : StratSettings) (db : Db) (trade_id : ℤ)
    (qty : ℚ) (exit_price pnl_usdt : Option ℚ) (close_code : ReasonCode)
    (close_reason : String) : Db :=
  let row := if 0 < trade_id then db.trade_logs.get? (trade_id - 1).toNat else none
  let entry_price := row.bind (·.entry_price)
  let pnl2 : Option ℚ :=
    match pnl_usdt with
    | some p => some p
    | none =>
      match exit_price, entry_price with
      | some xp, some ep => some ((xp - ep) * qty)
      | _, _ => none
  let label : Option ℤ := pnl2.map fun p => if 0 < p then 1 else 0
  let tl2 :=
    match row with
    | some r =>
      db.trade_logs.set (trade_id - 1).toNat
        { r with exit_price := exit_price, pnl := pnl2
                 close_reason_code := some close_code, close_reason := some close_reason
                 exit_time_ms := some env.now_ms, label := label
                 status := TradeStatus.CLOSED }
    | none => db.trade_logs
  let db1 := { db with trade_logs := tl2 }
  match row with
  | some r =>
    if st.ai_enabled ∧ label ≠ none ∧ r.features_x ≠ [] then
      let seen2 := env.parse_model_seen (cfg_lookup db1.system_config st.ai_model_key) + 1
      if seen2 % 10 = 0 then
        write_system_config db1 strategyService st.ai_model_key
          (env.serialized_model seen2) env.trace_id aiReasonCode aiReason aiAction
      else db1
    else db1
  | none => db1

/-! ## Per-symbol flows (main per-tick loop, lines 611–966) -/

/-- Outcome of processing one symbol: normal return, or a Python exception
escaping the loop body (carrying the DB state at the raise point). -/
inductive StepRes
  | ok (db : Db) (cnt : ℤ)
  | exn (msg : String) (db : Db) (cnt : ℤ)

def stop_created_event (env : Env) (st : StratSettings) (symbol : String)
    (latest : LatestBar) (bq : ℚ) : OrderEvent :=
  { trace_id := env.trace_id, service := strategyService, exchange := st.exchange
    symbol := symbol
    client_order_id := make_client_order_id env.sha1_hex actSl symbol latest.open_time_ms tagSb 64
    exchange_order_id := none, event_type := OrderEventType.CREATED, side := Side.SELL
    qty := bq, price := none, status := statusCreatedLit
    reason_code := ReasonCode.STOP_LOSS, reason := reasonStopCreated }

def stop_terminal_event (env : Env) (st : StratSettings) (symbol : String)
    (latest : LatestBar) (bq : ℚ) (res : OrderResult) : OrderEvent :=
  { trace_id := env.trace_id, service := strategyService, exchange := st.exchange
    symbol := symbol
    client_order_id := make_client_order_id env.sha1_hex actSl symbol latest.open_time_ms tagSb 64
    exchange_order_id := some res.exchange_order_id
    event_type := if strUpper res.status == sFILLED then OrderEventType.FILLED
      else OrderEventType.SUBMITTED
    side := Side.SELL, qty := bq, price := res.avg_price, status := res.status
    reason_code := ReasonCode.STOP_LOSS, reason := reasonStopExec }

/-- The two `order_events` rows the emergency-exit flow writes. -/
def emergency_created_event (env : Env) (st : StratSettings) (symbol : String)
    (latest : LatestBar) (bq : ℚ) : OrderEvent :=
  { trace_id := env.trace_id, service := strategyService, exchange := st.exchange
    symbol := symbol
    client_order_id := make_client_order_id env.sha1_hex actExit symbol latest.open_time_ms tagSb 64
    exchange_order_id := none, event_type := OrderEventType.CREATED, side := Side.SELL
    qty := bq, price := none, status := statusCreatedLit
    reason_code := ReasonCode.EMERGENCY_EXIT, reason := reasonEmerReq }

def emergency_terminal_event (env : Env) (st : StratSettings) (symbol : String)
    (latest : LatestBar) (bq : ℚ) (res : OrderResult) : OrderEvent :=
  { trace_id := env.trace_id, service := strategyService, exchange := st.exchange
    symbol := symbol
    client_order_id := make_client_order_id env.sha1_hex actExit symbol latest.open_time_ms tagSb 64
    exchange_order_id := some res.exchange_order_id
    event_type := if strUpper res.status == sFILLED then OrderEventType.FILLED
      else OrderEventType.SUBMITTED
    side := Side.SELL, qty := bq, price := res.avg_price, status := res.status
    reason_code := ReasonCode.EMERGENCY_EXIT, reason := reasonEmerExec }

/-- The two `order_events` rows the Setup-B SELL (close) flow writes. -/
def sell_created_event (env : Env) (st : StratSettings) (symbol : String)
    (latest : LatestBar) (qty : ℚ) : OrderEvent :=
  { trace_id := env.trace_id, service := strategyService, exchange := st.exchange
    symbol := symbol
    client_order_id := make_client_order_id env.sha1_hex actSell symbol latest.open_time_ms tagSb 64
    exchange_order_id := none, event_type := OrderEventType.CREATED, side := Side.SELL
    qty := qty, price := none, status := statusCreatedLit
    reason_code := ReasonCode.STRATEGY_SIGNAL, reason := reasonSetupSell }

def sell_terminal_event (env : Env) (st : StratSettings) (symbol : String)
    (latest : LatestBar) (qty : ℚ) (res : OrderResult) : OrderEvent :=
  { trace_id := env.trace_id, service := strategyService, exchange := st.exchange
    symbol := symbol
    client_order_id := make_client_order_id env.sha1_hex actSell symbol latest.open_time_ms tagSb 64
    exchange_order_id := some res.exchange_order_id
    event_type := if strUpper res.status == sFILLED then OrderEventType.FILLED
      else OrderEventType.SUBMITTED
    side := Side.SELL, qty := qty, price := res.avg_price, status := res.status
    reason_code := ReasonCode.STRATEGY_SIGNAL, reason := reasonOrderPlaced }

/-- The two `order_events` rows the entry (BUY) flow writes. -/
def entry_created_event (env : Env) (st : StratSettings) (symbol : String)
    (latest : LatestBar) (qty : ℚ) : OrderEvent :=
  { trace_id := env.trace_id, service := strategyService, exchange := st.exchange
    symbol := symbol
    client_order_id := make_client_order_id env.sha1_hex actBuy symbol latest.open_time_ms tagSb 64
    exchange_order_id := none, event_type := OrderEventType.CREATED, side := Side.BUY
    qty := qty, price := none, status := statusCreatedLit
    reason_code := ReasonCode.STRATEGY_SIGNAL, reason := reasonSetupBuy }

def entry_terminal_event (env : Env) (st : StratSettings) (symbol : String)
    (latest : LatestBar) (qty : ℚ) (res : OrderResult) : OrderEvent :=
  { trace_id := env.trace_id, service := strategyService, exchange := st.exchange
    symbol := symbol
    client_order_id := make_client_order_id env.sha1_hex actBuy symbol latest.open_time_ms tagSb 64
    exchange_order_id := some res.exchange_order_id
    event_type := if strUpper res.status == sFILLED then OrderEventType.FILLED
      else OrderEventType.SUBMITTED
    side := Side.BUY, qty := qty, price := res.avg_price, status := res.status
    reason_code := ReasonCode.STRATEGY_SIGNAL, reason := reasonOrderPlaced }

/-- The terminal event reconciliation writes when the venue reports a terminal
status (`t` is the mapped event type). -/
def recon_terminal_event (env : Env) (exchange_name : String) (r : OrderEvent)
    (stt : OrderResult) (eid : String) (t : OrderEventType) : OrderEvent :=
  { trace_id := env.reconcile_trace_id, service := strategyService
    exchange := exchange_name, symbol := r.symbol
    client_order_id := r.client_order_id, exchange_order_id := some eid
    event_type := t, side := r.side
    qty := if stt.filled_qty = 0 then r.qty else stt.filled_qty
    price := stt.avg_price, status := strUpper stt.status
    reason_code := ReasonCode.RECONCILE, reason := reasonReconTerm }

/-- The RECONCILED observation event reconciliation always writes. -/
def recon_observation_event (env : Env) (exchange_name : String) (r : OrderEvent)
    (stt : OrderResult) (eid : String) : OrderEvent :=
  { trace_id := env.reconcile_trace_id, service := strategyService
    exchange := exchange_name, symbol := r.symbol
    client_order_id := r.client_order_id, exchange_order_id := some eid
    event_type := OrderEventType.RECONCILED, side := r.side, qty := r.qty
    price := none, status := strUpper stt.status, reason_code := ReasonCode.RECONCILE
    reason := reasonReconObs }

/-- Emergency-exit flow (lines 630–694, branch `base_qty > 0`). -/
def emergency_flow (env : Env) (st : StratSettings) (db : Db) (cnt : ℤ)
    (symbol : String) (latest : LatestBar) (pos : Option PosSnap) (base_qty : ℚ) : StepRes :=
  let coid := make_client_order_id env.sha1_hex actExit symbol latest.open_time_ms tagSb 64
  let db1 := oe db (emergency_created_event env st symbol latest base_qty)
  match env.place_market_order symbol Side.SELL base_qty coid with
  | .error m => .exn m db1 cnt
  | .ok res =>
    let db2 := oe db1 (emergency_terminal_event env st symbol latest base_qty res)
    let meta2 := match pos with | some p => p.meta | none => meta_empty
    let trade_id2 := find_open_trade_id db2 symbol meta2
    let db3 := save_position db2 symbol 0 none
      { meta_empty with trace_id := some env.trace_id, note := some noteEmergency
                        trade_id := some trade_id2 }
    let db4 := if 0 < trade_id2 then
        close_trade_and_train env st db3 trade_id2 base_qty res.avg_price res.pnl_usdt
          ReasonCode.EMERGENCY_EXIT reasonEmerExec
      else db3
    .ok db4 (max 0 (cnt - 1))

/-- Hard stop-loss flow (lines 701–766, after `last_price <= stop_price`). -/
def stop_loss_flow (env : Env) (st : StratSettings) (db : Db) (cnt : ℤ)
    (symbol : String) (latest : LatestBar) (pos : Option PosSnap) (base_qty : ℚ) : StepRes :=
  let coid := make_client_order_id env.sha1_hex actSl symbol latest.open_time_ms tagSb 64
  let db1 := oe db (stop_created_event env st symbol latest base_qty)
  match env.place_market_order symbol Side.SELL base_qty coid with
  | .error m => .exn m db1 cnt
  | .ok res =>
    let db2 := oe db1 (stop_terminal_event env st symbol latest base_qty res)
    let meta2 := match pos with | some p => p.meta | none => meta_empty
    let trade_id2 := find_open_trade_id db2 symbol meta2
    let db3 := save_position db2 symbol 0 none
      { meta_empty with trace_id := some env.trace_id, note := some noteStopLoss
                        trade_id := some trade_id2 }
    let db4 := if 0 < trade_id2 then
        close_trade_and_train env st db3 trade_id2 base_qty res.avg_price res.pnl_usdt
          ReasonCode.STOP_LOSS reasonStopClose
      else db3
    .ok db4 (max 0 (cnt - 1))

/-- Entry flow (lines 769–885, once the symbol passed the selection and
concurrency-cap guards and `qty > 0`). -/
def entry_flow (env : Env) (st : StratSettings) (db : Db) (cnt : ℤ)
    (symbol : String) (latest : LatestBar) (last_price : ℚ) (score : ℚ)
    (ai_prob : Option ℚ) (combined_score : ℚ) (features_x : List ℚ)
    (lev : ℤ) (qty : ℚ) : StepRes :=
  match env.set_leverage_and_margin_mode symbol lev with
  | .error m => .exn m db cnt
  | .ok _ =>
    let coid := make_client_order_id env.sha1_hex actBuy symbol latest.open_time_ms tagSb 64
    let stop_dist_pct := st.hard_stop_loss_pct
    let stop_price_init := last_price * (1 - stop_dist_pct)
    let orc := if ai_prob ≠ none then ReasonCode.AI_SELECT else ReasonCode.STRATEGY_SIGNAL
    let opened := open_trade_log env db symbol qty lev stop_dist_pct stop_price_init coid
      score ai_prob orc openReasonBuy features_x
    let db1 := opened.1
    let trade_id := opened.2
    let db2 := oe db1 (entry_created_event env st symbol latest qty)
    match env.place_market_order symbol Side.BUY qty coid with
    | .error m => .exn m db2 cnt
    | .ok res =>
      let db3 := oe db2 (entry_terminal_event env st symbol latest qty res)
      let entry_price := res.avg_price.getD last_price
      let db4 := save_position db3 symbol qty (some entry_price)
        { meta_empty with trace_id := some env.trace_id, note := some noteEntered
                          robot_score := some score, leverage := some lev }
      let _ := (trade_id, combined_score)
      .ok db4 (cnt + 1)

/-- Setup-B SELL (close) flow (lines 887–964). -/
def sell_exit_flow (env : Env) (st : StratSettings) (db : Db) (cnt : ℤ)
    (symbol : String) (latest : LatestBar) (pos : Option PosSnap) (base_qty : ℚ) : StepRes :=
  let qty := base_qty
  let score := compute_robot_score latest.toRaw Side.SELL
  let lev := leverage_from_score st.auto_leverage_min st.auto_leverage_max score
  match env.set_leverage_and_margin_mode symbol lev with
  | .error m => .exn m db cnt
  | .ok _ =>
    let coid := make_client_order_id env.sha1_hex actSell symbol latest.open_time_ms tagSb 64
    let db1 := oe db (sell_created_event env st symbol latest qty)
    match env.place_market_order symbol Side.SELL qty coid with
    | .error m => .exn m db1 cnt
    | .ok res =>
      let db2 := oe db1 (sell_terminal_event env st symbol latest qty res)
      let meta2 := match pos with | some p => p.meta | none => meta_empty
      let trade_id2 := find_open_trade_id db2 symbol meta2
      let db3 := save_position db2 symbol 0 none
        { meta_empty with trace_id := some env.trace_id, note := some noteExited
                          trade_id := some trade_id2, robot_score := some score
                          leverage := some lev }
      let close_code :=
        match res.pnl_usdt with
        | some p =>
          if st.take_profit_reason_on_positive_pnl ∧ 0 < p then ReasonCode.TAKE_PROFIT
          else ReasonCode.STRATEGY_EXIT
        | none => ReasonCode.STRATEGY_EXIT
      let db4 := if 0 < trade_id2 then
          close_trade_and_train env st db3 trade_id2 qty res.avg_price res.pnl_usdt
            close_code reasonSetupSell
        else db3
      .ok db4 (max 0 (cnt - 1))

/-- Signal evaluation and entry/exit dispatch (lines 768–964). -/
def signal_branch (env : Env) (st : StratSettings) (selected : List String)
    (selMeta : String → Option CandMeta) (db : Db) (cnt : ℤ) (symbol : String)
    (latest : LatestBar) (pos : Option PosSnap) (base_qty : ℚ) (last_price : ℚ) : StepRes :=
  let sig := setup_b_signal latest
  if sig = some Side.BUY ∧ base_qty ≤ 0 then
    if selected.contains symbol = false then .ok db cnt
    else if st.max_concurrent_positions ≤ cnt then .ok db cnt
    else
      let meta_open := selMeta symbol
      let score := or_default_q (meta_open.map (·.robot_score))
        (compute_robot_score latest.toRaw Side.BUY)
      let ai_prob := meta_open.bind (·.ai_prob)
      let combined_score := or_default_q (meta_open.map (·.combined_score)) score
      let features_x := (meta_open.map (·.features_x)).getD []
      let lev := leverage_from_score st.auto_leverage_min st.auto_leverage_max score
      let qty := min_qty_from_min_margin_usdt st.min_order_usdt last_price lev 6
      if qty ≤ 0 then .ok db cnt
      else entry_flow env st db cnt symbol latest last_price score ai_prob combined_score
        features_x lev qty
  else if sig = some Side.SELL ∧ 0 < base_qty then
    sell_exit_flow env st db cnt symbol latest pos base_qty
  else .ok db cnt

/-- One iteration of the per-symbol loop (lines 611–966); the distributed lock
acquisition is `env.locks` and a failed acquisition silently skips the symbol. -/
def symbol_step (env : Env) (st : StratSettings) (selected : List String)
    (selMeta : String → Option CandMeta) (db : Db) (cnt : ℤ) (symbol : String) : StepRes :=
  if env.locks symbol = false then .ok db cnt
  else
    match db.latest symbol st.interval_minutes with
    | none => .ok db cnt
    | some latest =>
      let last_price := latest.close_price
      let pos := last_snapshot db.position_snapshots symbol
      let base_qty := match pos with | some p => p.base_qty | none => 0
      let avg_entry : Option ℚ := match pos with | some p => p.avg_entry_price | none => none
      if get_flag db emergencyKey falseLit = trueLit then
        if 0 < base_qty then emergency_flow env st db cnt symbol latest pos base_qty
        else .ok db cnt
      else
        if 0 < base_qty then
          match avg_entry with
          | some ae =>
            let meta := match pos with | some p => p.meta | none => meta_empty
            let stop_dist_pct := or_default_q meta.stop_dist_pct st.hard_stop_loss_pct
            let stop_price := or_default_q meta.stop_price (ae * (1 - stop_dist_pct))
            if last_price ≤ stop_price then
              stop_loss_flow env st db cnt symbol latest pos base_qty
            else signal_branch env st selected selMeta db cnt symbol latest pos base_qty last_price
          | none => signal_branch env st selected selMeta db cnt symbol latest pos base_qty last_price
        else signal_branch env st selected selMeta db cnt symbol latest pos base_qty last_price

/-- The `for symbol in settings.symbols` loop; an exception in one symbol's body
propagates (aborting the remaining symbols) because the loop has no per-symbol
handler — only the tick-level `try` catches it. -/
def run_symbols (env : Env) (st : StratSettings) (selected : List String)
    (selMeta : String → Option CandMeta) : Db → ℤ → List String → StepRes
  | db, cnt, [] => .ok db cnt
  | db, cnt, s :: rest =>
    match symbol_step env st selected selMeta db cnt s with
    | .ok db2 cnt2 => run_symbols env st selected selMeta db2 cnt2 rest
    | .exn m db2 cnt2 => .exn m db2 cnt2

/-! ## Candidate selection (lines 555–610) -/

/-- The per-symbol candidate filter inside the selection loop. -/
def candidate_for (env : Env) (st : StratSettings) (db : Db) (s : String) :
    Option (ℚ × String × CandMeta) :=
  if 0 < latest_qty db s then none
  else
    match db.latest s st.interval_minutes with
    | none => none
    | some latest =>
      if setup_b_signal latest ≠ some Side.BUY then none
      else
        let last_px := latest.close_price
        if last_px ≤ 0 then none
        else
          let score := compute_robot_score latest.toRaw Side.BUY
          let lev := leverage_from_score st.auto_leverage_min st.auto_leverage_max score
          let qty := min_qty_from_min_margin_usdt st.min_order_usdt last_px lev 6
          if qty ≤ 0 then none
          else
            let xv := vectorize_for_ai latest
            let ai_prob := if st.ai_enabled then some (env.predict_proba xv) else none
            let combined :=
              match ai_prob with
              | some p => let w := clamp st.ai_weight 0 1
                          (1 - w) * score + w * (p * 100)
              | none => score
            let fx := if st.ai_enabled then xv else []
            some (combined, s, ⟨score, ai_prob, combined, fx⟩)

/-- Candidates ranked by combined score (descending, stable) and cut to the
available slots `max 0 (MAX_CONCURRENT_POSITIONS − open_cnt)`. -/
def select_candidates (env : Env) (st : StratSettings) (db : Db) :
    List (ℚ × String × CandMeta) :=
  let open_cnt : ℤ := (open_count db st.symbols : ℤ)
  let slots : ℤ := max 0 (st.max_concurrent_positions - open_cnt)
  if 0 < slots then
    let cands := st.symbols.filterMap (candidate_for env st db)
    let sorted := cands.mergeSort (fun a b => b.1 ≤ a.1)
    sorted.take slots.toNat
  else []

/-- `selected_open_symbols`. -/
def select_syms (env : Env) (st : StratSettings) (db : Db) : List String :=
  (select_candidates env st db).map (·.2.1)

/-- `selected_open_meta` lookup. -/
def sel_meta (env : Env) (st : StratSettings) (db : Db) (s : String) : Option CandMeta :=
  ((select_candidates env st db).find? (fun c => c.2.1 == s)).map (·.2.2)

/-! ## Reconciliation (lines 32–124) -/

/-- One stale order: query the venue (failures are caught per row and skipped),
append a terminal event when the venue status maps to one, then always append a
`RECONCILED` observation event. -/
def reconcile_one (env : Env) (exchange_name : String) (db : Db) (r : OrderEvent) : Db :=
  match env.get_order_status r.symbol r.client_order_id r.exchange_order_id with
  | .error _ => db
  | .ok stt =>
    let status_u := strUpper stt.status
    let terminal : Option OrderEventType :=
      if status_u == sFILLED || status_u == sCLOSED then some OrderEventType.FILLED
      else if status_u == sCANCELED || status_u == sCANCELLED then some OrderEventType.CANCELED
      else if status_u == sREJECTED || status_u == sEXPIRED || status_u == sERROR
          || status_u == sFAILED then some OrderEventType.ERROR
      else none
    let qty0 := stt.filled_qty
    let eid := if stt.exchange_order_id == "" then r.exchange_order_id.getD noneLit
      else stt.exchange_order_id
    let db1 :=
      match terminal with
      | some t => oe db (recon_terminal_event env exchange_name r stt eid t)
      | none => db
    oe db1 (recon_observation_event env exchange_name r stt eid)

/-- `reconcile_stale_orders`. -/
def reconcile_stale_orders (env : Env) (exchange_name : String) (db : Db) : Db :=
  env.stale_rows.foldl (reconcile_one env exchange_name) db

/-! ## The tick (main loop body, lines 536–994) -/

/-- One strategy tick.  `HALT_TRADING` short-circuits everything (including the
emergency-exit handling, which lives inside the per-symbol loop).  The whole
body runs under the tick-level `try`: a per-symbol exception ends the loop but
is caught, leaving the DB as at the raise point (and skipping the end-of-tick
`EMERGENCY_EXIT` clear).  On a clean pass the flag, when still set, is cleared
with the bare `set_flag`. -/
def strategy_tick (env : Env) (st : StratSettings) (db : Db) : Db :=
  if get_flag db haltKey falseLit = trueLit then db
  else
    let db1 := reconcile_stale_orders env st.exchange db
    let cnt0 : ℤ := (open_count db1 st.symbols : ℤ)
    let selected := select_syms env st db1
    match run_symbols env st selected (sel_meta env st db1) db1 cnt0 st.symbols with
    | .ok db2 _ =>
      if get_flag db2 emergencyKey falseLit = trueLit then set_flag db2 emergencyKey falseLit
      else db2
    | .exn _ db2 _ => db2

/-! ## services/data_syncer/main.py — one symbol's sync cycle (lines 553–613)

Tables the sync path writes: `market_data` (INSERT IGNORE), `precompute_tasks`
(INSERT IGNORE) and the `service_status` heartbeat.  The lag metric and the
in-batch gap-counter are telemetry only.  The precompute worker
(`process_precompute_tasks`, called after each symbol's sync in the service
loop) is outside claim C6's sources and is not part of this cycle model. -/

structure Kline where
  open_time_ms : ℤ
  close_time_ms : ℤ
  open_px : ℚ
  high_px : ℚ
  low_px : ℚ
  close_px : ℚ
  volume : ℚ
deriving DecidableEq

structure MarketRow where
  symbol : String
  interval_minutes : ℤ
  open_time_ms : ℤ
  close_time_ms : ℤ
  open_price : ℚ
  high_price : ℚ
  low_price : ℚ
  close_price : ℚ
  volume : ℚ
deriving DecidableEq

inductive TaskStatus
  | PENDING | DONE | ERROR
deriving DecidableEq

structure TaskRow where
  symbol : String
  interval_minutes : ℤ
  open_time_ms : ℤ
  status : TaskStatus
  try_count : ℕ
  last_error : Option String
  trace_id : String
deriving DecidableEq

/-- Heartbeat payload variants written by the sync path. -/
inductive HbStatus
  | OK (symbol : String) (inserted : ℕ)
  | NO_DATA (symbol : String)
  | ERR (symbol : String) (error : String)
deriving DecidableEq

structure SyncDb where
  market_data : List MarketRow
  precompute_tasks : List TaskRow
  service_status : List (String × HbStatus)

/-- The environment of a sync cycle: the venue kline fetch (fallible) and the
cycle trace id. -/
structure SyncEnv where
  fetch_klines : String → ℤ → Option ℤ → ℕ → Except String (List Kline)
  trace_id : String

/-- `upsert_heartbeat` keyed by instance id (the service name is fixed). -/
def upsert_heartbeat (db : SyncDb) (instance_id : String) (s : HbStatus) : SyncDb :=
  { db with service_status :=
      if db.service_status.any (fun p => p.1 == instance_id) then
        db.service_status.map (fun p => if p.1 == instance_id then (instance_id, s) else p)
      else db.service_status ++ [(instance_id, s)] }

/-- `_insert_market_data`: INSERT IGNORE on (symbol, interval, open_time_ms);
returns the new table and the number of rows actually inserted. -/
def insert_market_data (db : SyncDb) (symbol : String) (interval : ℤ)
    (klines : List Kline) : SyncDb × ℕ :=
  let step := fun (acc : List MarketRow × ℕ) (k : Kline) =>
    if acc.1.any (fun r => r.symbol == symbol && r.interval_minutes == interval
        && r.open_time_ms == k.open_time_ms) then acc
    else (acc.1 ++ [{ symbol := symbol, interval_minutes := interval
                      open_time_ms := k.open_time_ms, close_time_ms := k.close_time_ms
                      open_price := k.open_px, high_price := k.high_px
                      low_price := k.low_px, close_price := k.close_px
                      volume := k.volume }], acc.2 + 1)
  let out := klines.foldl step (db.market_data, 0)
  ({ db with market_data := out.1 }, out.2)

/-- `enqueue_precompute_tasks`: INSERT IGNORE PENDING tasks. -/
def enqueue_precompute_tasks (db : SyncDb) (symbol : String) (interval : ℤ)
    (open_times : List ℤ) (trace_id : String) : SyncDb × ℕ :=
  let step := fun (acc : List TaskRow × ℕ) (ot : ℤ) =>
    if acc.1.any (fun r => r.symbol == symbol && r.interval_minutes == interval
        && r.open_time_ms == ot) then acc
    else (acc.1 ++ [{ symbol := symbol, interval_minutes := interval, open_time_ms := ot
                      status := TaskStatus.PENDING, try_count := 0, last_error := none
                      trace_id := trace_id }], acc.2 + 1)
  let out := open_times.foldl step (db.precompute_tasks, 0)
  ({ db with precompute_tasks := out.1 }, out.2)

/-- `SELECT open_time_ms ... ORDER BY open_time_ms DESC LIMIT 1`. -/
def latest_open_time (db : SyncDb) (symbol : String) (interval : ℤ) : Option ℤ :=
  ((db.market_data.filter (fun r => r.symbol == symbol
      && r.interval_minutes == interval)).map (·.open_time_ms)).max?

/-- The last ~600 bar open times, ascending (`_fill_recent_gaps` lines 512–523). -/
def recent_times (db : SyncDb) (symbol : String) (interval : ℤ) : List ℤ :=
  let times := (db.market_data.filter (fun r => r.symbol == symbol
      && r.interval_minutes == interval)).map (·.open_time_ms)
  let newest := (times.mergeSort (fun a b => b ≤ a)).take 600
  newest.mergeSort (fun a b => a ≤ b)

/-- The `while cursor <= end` chunk-fetch loop of `_fill_recent_gaps`
(lines 534–546).  The loop advances by `limit · interval_ms ≥ interval_ms` per
iteration, so the fuel chosen by the caller covers every iteration; a fetch
error propagates as the exception it is in Python, carrying the DB written so
far. -/
def gap_fetch_chunks (env : SyncEnv) (symbol : String) (interval interval_ms : ℤ) :
    ℕ → ℤ → ℤ → SyncDb → Except (String × SyncDb) SyncDb
  | 0, _, _, db => .ok db
  | fuel + 1, cursor, end_, db =>
    if end_ < cursor then .ok db
    else
      let limit : ℕ := min 1000 (((end_ - cursor).fdiv interval_ms).toNat + 1)
      match env.fetch_klines symbol interval (some cursor) limit with
      | .error e => .error (e, db)
      | .ok kl =>
        let ins := insert_market_data db symbol interval kl
        let db2 := if 0 < ins.2 then
            (enqueue_precompute_tasks ins.1 symbol interval (kl.map (·.open_time_ms))
              env.trace_id).1
          else ins.1
        gap_fetch_chunks env symbol interval interval_ms fuel
          (cursor + (limit : ℤ) * interval_ms) end_ db2

/-- Walk consecutive open-time pairs; for every gap (`Δ > interval_ms`) run the
chunked backfill over the missing window (lines 526–546). -/
def fill_gap_windows (env : SyncEnv) (symbol : String) (interval interval_ms : ℤ) :
    List ℤ → SyncDb → Except (String × SyncDb) SyncDb
  | [], db => .ok db
  | [_], db => .ok db
  | t1 :: t2 :: rest, db =>
    if interval_ms < t2 - t1 then
      let start := t1 + interval_ms
      let end_ := t2 - interval_ms
      let fuel := ((end_ - start).fdiv (max 1 interval_ms)).toNat + 2
      match gap_fetch_chunks env symbol interval interval_ms fuel start end_ db with
      | .error e => .error e
      | .ok db1 => fill_gap_windows env symbol interval interval_ms (t2 :: rest) db1
    else fill_gap_windows env symbol interval interval_ms (t2 :: rest) db

/-- `_fill_recent_gaps` (lines 508–550). -/
def fill_recent_gaps (env : SyncEnv) (symbol : String) (interval interval_ms : ℤ)
    (db : SyncDb) : Except (String × SyncDb) SyncDb :=
  let times := recent_times db symbol interval
  if times.length < 3 then .ok db
  else fill_gap_windows env symbol interval interval_ms times db

/-- `sync_symbol_once` (lines 553–613): the whole body runs in a `try` whose
handler records an ERROR heartbeat and returns — a failure in one symbol's
cycle never propagates to the caller. -/
def sync_symbol_once (env : SyncEnv) (interval_minutes : ℤ) (instance_id : String)
    (db : SyncDb) (symbol : String) : SyncDb :=
  let interval_ms := interval_minutes * 60000
  let body : Except (String × SyncDb) SyncDb :=
    let last := latest_open_time db symbol interval_minutes
    let start_ms := last.map (· + interval_ms)
    match env.fetch_klines symbol interval_minutes start_ms 1000 with
    | .error e => .error (e, db)
    | .ok klines =>
      if klines.isEmpty then .ok (upsert_heartbeat db instance_id (HbStatus.NO_DATA symbol))
      else
        let ins := insert_market_data db symbol interval_minutes klines
        let inserted := ins.2
        let db2 := if 0 < inserted then
            (enqueue_precompute_tasks ins.1 symbol interval_minutes
              (klines.map (·.open_time_ms)) env.trace_id).1
          else ins.1
        match fill_recent_gaps env symbol interval_minutes interval_ms db2 with
        | .error e => .error e
        | .ok db3 => .ok (upsert_heartbeat db3 instance_id (HbStatus.OK symbol inserted))
  match body with
  | .ok db2 => db2
  | .error (e, db2) => upsert_heartbeat db2 instance_id (HbStatus.ERR symbol e)

/-- The per-cycle `for sym in symbols` loop of the syncer's service loop
(restricted to the sync step). -/
def sync_cycle (env : SyncEnv) (interval_minutes : ℤ) (instance_id : String)
    (db : SyncDb) (symbols : List String) : SyncDb :=
  symbols.foldl (sync_symbol_once env interval_minutes instance_id) db

/-! ## Small observation helpers -/

/-- The DB state a step result carries (normal or at the raise point). -/
def StepRes.dbOut : StepRes → Db
  | .ok db _ => db
  | .exn _ db _ => db

/-- A new BUY entry order as observed in `order_events`. -/
def is_buy_created (e : OrderEvent) : Bool :=
  e.event_type == OrderEventType.CREATED && e.side == Side.BUY

def buy_created_count (l : List OrderEvent) : ℕ := (l.filter is_buy_created).length

/-- `l2` extends `l` by newly appended event rows, at most `k` of which are BUY
CREATED rows, every one of them for a symbol in `sel` (the tick's
`selected_open_symbols`).  This is the observable the concurrency cap bounds. -/
def events_extended (sel : List String) (k : ℕ) (l l2 : List OrderEvent) : Prop :=
  ∃ t, l2 = l ++ t ∧ (t.filter is_buy_created).length ≤ k
    ∧ ∀ e ∈ t, is_buy_created e = true → sel.contains e.symbol = true

/-! ## Concrete fixture data used by witnesses and counterexamples -/

def sBTC : String := "BTCUSDT"
def sETH : String := "ETHUSDT"
def eBoom : String := "network down"

def feat_empty : FeatMap :=
  { atr14 := none, adx14 := none, plus_di14 := none, minus_di14 := none
    bb_width20 := none, vol_ratio := none, mom10 := none, ret1 := none, ret_std20 := none }

def latest0 : LatestBar :=
  { open_time_ms := 1700000000000, close_price := 100, ema_fast := some 101
    ema_slow := some 100, rsi := some 50, features := feat_empty }

def latest_low : LatestBar :=
  { open_time_ms := 1700000000000, close_price := 96, ema_fast := none
    ema_slow := none, rsi := none, features := feat_empty }

def latest_97 : LatestBar :=
  { open_time_ms := 1700000000000, close_price := 97, ema_fast := some 1
    ema_slow := some 2, rsi := none, features := feat_empty }

def res_filled : OrderResult :=
  { exchange_order_id := "E1", status := "FILLED", filled_qty := 1
    avg_price := some 100, fee_usdt := none, pnl_usdt := some 5 }

def env0 : Env :=
  { locks := fun _ => true
    place_market_order := fun _ _ _ _ => .ok res_filled
    set_leverage_and_margin_mode := fun _ _ => .ok ()
    get_order_status := fun _ _ _ => .error eBoom
    stale_rows := []
    predict_proba := fun _ => 0
    parse_model_seen := fun _ => 0
    serialized_model := fun _ => ""
    sha1_hex := fun _ => ""
    now_ms := 0
    trace_id := "tick-1"
    reconcile_trace_id := "rec-1" }

def env_fail : Env :=
  { env0 with place_market_order := fun s _ _ _ =>
      if s == sBTC then .error eBoom else .ok res_filled }

def st0 : StratSettings :=
  { exchange := "paper", symbols := [sBTC], interval_minutes := 15
    strategy_tick_seconds := 900, hard_stop_loss_pct := mkRat 3 100
    max_concurrent_positions := 3, min_order_usdt := 50
    auto_leverage_min := 10, auto_leverage_max := 20, ai_enabled := false
    ai_weight := mkRat 35 100, ai_model_key := "AI_MODEL_V1"
    take_profit_reason_on_positive_pnl := true }

def st_two : StratSettings := { st0 with symbols := [sBTC, sETH] }

def snap_meta_stop : PosMeta :=
  { meta_empty with stop_price := some 97, stop_dist_pct := some (mkRat 3 100) }

def snap_btc : PosSnap :=
  { symbol := sBTC, base_qty := 1, avg_entry_price := some 100, meta := snap_meta_stop }

def snap_eth : PosSnap :=
  { symbol := sETH, base_qty := 1, avg_entry_price := some 100, meta := snap_meta_stop }

def snap_c4 : PosSnap :=
  { symbol := sBTC, base_qty := 1, avg_entry_price := some 100, meta := snap_meta_stop }

def latest_fn0 : String → ℤ → Option LatestBar :=
  fun s i => if s == sBTC && i == 15 then some latest0 else none

def latest_fn_low : String → ℤ → Option LatestBar :=
  fun s i => if i == 15 then (if s == sBTC || s == sETH then some latest_low else none)
    else none

def latest_fn_97 : String → ℤ → Option LatestBar :=
  fun s i => if s == sBTC && i == 15 then some latest_97 else none

def db_c2 : Db :=
  { system_config := [(emergencyKey, trueLit)], config_audit := [], order_events := []
    position_snapshots := [snap_btc], trade_logs := [], latest := latest_fn0 }

def db_c3 : Db :=
  { db_c2 with system_config := [(haltKey, trueLit), (emergencyKey, trueLit)] }

def db_c4 : Db :=
  { system_config := [], config_audit := [], order_events := []
    position_snapshots := [snap_c4], trade_logs := [], latest := latest_fn_97 }

def db_c6 : Db :=
  { system_config := [], config_audit := [], order_events := []
    position_snapshots := [snap_btc, snap_eth], trade_logs := [], latest := latest_fn_low }

def ev0 : OrderEvent :=
  { trace_id := "t", service := strategyService, exchange := "binance", symbol := sBTC
    client_order_id := "buy_sb_BTCUSDT_1700000000000", exchange_order_id := none
    event_type := OrderEventType.CREATED, side := Side.BUY, qty := 1, price := none
    status := statusCreatedLit, reason_code := ReasonCode.STRATEGY_SIGNAL
    reason := reasonSetupBuy }

/-- Bars for the C9 counterexample: every true range is 1, so the seed average
is 1 and the divergence between the code's update and the claimed recurrence is
visible on the 16th bar. -/
def c9_bars : List Bar :=
  (List.range 16).map fun k =>
    { open_time_ms := k, open_price := (k : ℚ), high_price := (k : ℚ) + 1
      low_price := (k : ℚ), close_price := (k : ℚ) + 1, volume := 0 }

/-- A bar with true range 1, +DM 1, −DM 0 against previous close/high/low 0. -/
def c9_bw : Bar :=
  { open_time_ms := 0, open_price := 0, high_price := 1, low_price := 0
    close_price := 1, volume := 0 }

/-- A state one TR short of the ATR seed. -/
def c9_s0 : AtrAdxState :=
  { atr_adx_init with
    prev_close := some 0, prev_high := some 0, prev_low := some 0
    tr_list := [1, 1, 1, 1, 1, 1, 1, 1, 1, 1, 1, 1, 1]
    plus_dm_list := [1, 1, 1, 1, 1, 1, 1, 1, 1, 1, 1, 1, 1]
    minus_dm_list := [0, 0, 0, 0, 0, 0, 0, 0, 0, 0, 0, 0, 0] }

/-- A seeded state (ATR present, ADX present) for the recurrence witnesses. -/
def c9_s2 : AtrAdxState :=
  { c9_s0 with atr := some 0, plus_dm_s := none, minus_dm_s := none
               dx_list := [], adx := some 50 }

/-- A seeded state (ATR present) one DX value short of the ADX seed. -/
def c9_s3 : AtrAdxState :=
  { c9_s2 with adx := none
               dx_list := [100, 100, 100, 100, 100, 100, 100, 100, 100, 100, 100, 100, 100] }

/-- The stop-loss CREATED event the failing C6 tick writes for `sBTC` before
the exchange call raises. -/
def ev_sl_btc : OrderEvent :=
  { trace_id := "tick-1", service := strategyService, exchange := "paper"
    symbol := sBTC, client_order_id := "sl_sb_BTCUSDT_1700000000000"
    exchange_order_id := none, event_type := OrderEventType.CREATED
    side := Side.SELL, qty := 1, price := none, status := statusCreatedLit
    reason_code := ReasonCode.STOP_LOSS, reason := reasonStopCreated }

def db_c6_mid : Db := { db_c6 with order_events := [ev_sl_btc] }

def env_sync_fail : SyncEnv :=
  { fetch_klines := fun _ _ _ _ => .error eBoom, trace_id := "sync-1" }

def db_sync0 : SyncDb :=
  { market_data := [], precompute_tasks := [], service_status := [] }

/-! ### C1 support lemmas -/

lemma strTake_length_le (s : String) (n : Nat) : (strTake s n).length ≤ n := by
  simp only [strTake, String.length, List.length_take]
  exact min_le_left _ _

lemma dup_msg_matched :
    (strIn dup_token (strLower uq_dup_msg)
      && (strIn uq_new_name (strLower uq_dup_msg)
          || strIn uq_old_name (strLower uq_dup_msg))) = true := by decide

lemma same_event_key_refl (e : OrderEvent) : same_event_key e e = true := by
  simp [same_event_key]

lemma append_order_event_dup (tbl : List OrderEvent) (e : OrderEvent)
    (h : tbl.any (fun r => same_event_key r e) = true) :
    append_order_event tbl e = .ok tbl := by
  have hins : order_events_insert tbl e = .error uq_dup_msg := by
    simp [order_events_insert, h]
  simp [append_order_event, hins, dup_msg_matched]

lemma append_order_event_ok_any (tbl tbl' : List OrderEvent) (e : OrderEvent)
    (h : append_order_event tbl e = .ok tbl') :
    tbl'.any (fun r => same_event_key r e) = true := by
  by_cases hk : tbl.any (fun r => same_event_key r e) = true
  · rw [append_order_event_dup tbl e hk] at h
    cases h
    exact hk
  · have hins : order_events_insert tbl e = .ok (tbl ++ [e]) := by
      simp only [order_events_insert, Bool.not_eq_true] at hk ⊢
      simp [hk]
    simp only [append_order_event, hins] at h
    cases h
    simp [same_event_key_refl]

/-! ## Claim C1 -/

/-- C1: `make_client_order_id` is a pure function of
(action, symbol, strategy tag, kline_open_time_ms) — in this embedding it *is*
a function of exactly that tuple (given the hash), so the provable content is:
(1) the id never exceeds 64 characters, for every hash function;
(2) `append_order_event` turns a duplicate-key failure on the
(exchange, symbol, client_order_id, event_type) constraint into normal success,
leaving the table unchanged;
(3) hence re-issuing the same event is a no-op: after a successful append,
appending the same event again succeeds and leaves exactly one row per
event type. -/
theorem C1_idempotent_order_submission :
    (∀ (sha1_hex : String → String) (action symbol strategy_tag : String) (ms : ℤ),
        (make_client_order_id sha1_hex action symbol ms strategy_tag 64).length ≤ 64)
  ∧ (∀ (tbl : List OrderEvent) (e : OrderEvent),
        tbl.any (fun r => same_event_key r e) = true → append_order_event tbl e = .ok tbl)
  ∧ (∀ (tbl tbl' : List OrderEvent) (e : OrderEvent),
        append_order_event tbl e = .ok tbl' → append_order_event tbl' e = .ok tbl') := by
  refine ⟨?_, append_order_event_dup, ?_⟩
  · intro f action symbol tag ms
    simp only [make_client_order_id]
    split
    · exact (by assumption)
    · exact strTake_length_le _ _
  · intro tbl tbl' e h
    exact append_order_event_dup tbl' e (append_order_event_ok_any tbl tbl' e h)

/-- Witness for C1 at concrete inputs. -/
theorem C1_idempotent_order_submission_witness :
    (make_client_order_id (fun _ => "") actBuy "BTC/USDT" 1700000000000 tagSb 64).length ≤ 64
    ∧ append_order_event [ev0] ev0 = .ok [ev0] :=
  ⟨C1_idempotent_order_submission.1 (fun _ => "") actBuy "BTC/USDT" tagSb 1700000000000,
   C1_idempotent_order_submission.2.2 [] [ev0] ev0 (by rfl)⟩

/-! ## Claim C7 -/

lemma clamp_mem (v lo hi : ℚ) (h : lo ≤ hi) : lo ≤ clamp v lo hi ∧ clamp v lo hi ≤ hi :=
  ⟨le_max_left _ _, max_le h (min_le_left _ _)⟩

lemma min_qty_nonpos_price (m p : ℚ) (lev : ℤ) (hp : p ≤ 0) :
    min_qty_from_min_margin_usdt m p lev 6 = 0 := by
  simp [min_qty_from_min_margin_usdt, hp]

lemma min_qty_eq (m p : ℚ) (lev : ℤ) (hm : 0 ≤ m) (hl : 1 ≤ lev) (hp : 0 < p) :
    min_qty_from_min_margin_usdt m p lev 6
      = (⌈m * (lev : ℚ) / p * 10 ^ 6⌉ : ℚ) / 10 ^ 6 := by
  have hne : ¬ p ≤ 0 := not_le.mpr hp
  have hmax : max 1 lev = lev := max_eq_right hl
  simp only [min_qty_from_min_margin_usdt, hmax, if_neg hne]
  split_ifs with h0
  · have hlev : (1 : ℚ) ≤ (lev : ℚ) := by exact_mod_cast hl
    have hq : 0 ≤ m * (lev : ℚ) / p :=
      div_nonneg (mul_nonneg hm (le_trans zero_le_one hlev)) hp.le
    have hq0 : m * (lev : ℚ) / p = 0 := le_antisymm h0 hq
    rw [hq0]
    norm_num
  · norm_num

lemma min_qty_notional (m p : ℚ) (lev : ℤ) (hm : 0 ≤ m) (hl : 1 ≤ lev) (hp : 0 < p) :
    m * (lev : ℚ) ≤ min_qty_from_min_margin_usdt m p lev 6 * p := by
  rw [min_qty_eq m p lev hm hl hp]
  have hf : (0 : ℚ) < 10 ^ 6 := by norm_num
  have h1 : m * (lev : ℚ) / p ≤ (⌈m * (lev : ℚ) / p * 10 ^ 6⌉ : ℚ) / 10 ^ 6 := by
    rw [le_div_iff₀ hf]
    exact Int.le_ceil _
  have h2 : m * (lev : ℚ) / p * p = m * (lev : ℚ) := div_mul_cancel₀ _ hp.ne'
  calc m * (lev : ℚ) = m * (lev : ℚ) / p * p := h2.symm
    _ ≤ (⌈m * (lev : ℚ) / p * 10 ^ 6⌉ : ℚ) / 10 ^ 6 * p :=
        mul_le_mul_of_nonneg_right h1 hp.le

lemma leverage_bounds (lo hi : ℤ) (s : ℚ) (h : lo ≤ hi) :
    lo ≤ leverage_from_score lo hi s ∧ leverage_from_score lo hi s ≤ hi := by
  have hno : ¬ hi < lo := not_lt.mpr h
  simp only [leverage_from_score, if_neg hno]
  exact ⟨le_max_left _ _, max_le h (min_le_left _ _)⟩

lemma leverage_formula (lo hi : ℤ) (s : ℚ) (h : lo ≤ hi) :
    leverage_from_score lo hi s
      = max lo (min hi (lo + py_round_half_even (((hi : ℚ) - (lo : ℚ)) * (clamp s 0 100 / 100)))) := by
  simp only [leverage_from_score, if_neg (not_lt.mpr h)]

/-- C7 counterexample: the claim's formula `round(lo + (hi−lo)·score/100)`
(read with the implementation language's round-half-to-even; any fixed standard
rounding fails on some input) does not match the code.  At `lo = 11`, `hi = 21`,
`score = 45` the intermediate is the exact tie `(hi−lo)·score/100 = 9/2`:
the code computes `11 + round(9/2) = 11 + 4 = 15`, while the claim's
`round(11 + 9/2) = round(31/2) = 16`, inside `[11, 21]` either way. -/
theorem C7_leverage_formula_counterexample :
    leverage_from_score 11 21 45 = 15 ∧ leverage_from_score_spec 11 21 45 = 16 := by
  constructor <;>
    norm_num [leverage_from_score, leverage_from_score_spec, py_round_half_even, clamp]

/-- C7 amended: for `min_margin ≥ 0`, `leverage ≥ 1` and `last_price > 0` the
quantity is exactly `margin × leverage / last_price` rounded upwards at the 6th
decimal, so `qty × last_price ≥ margin × leverage`; `qty = 0` when
`last_price ≤ 0`.  The chosen leverage equals
`lo + round((hi−lo)·clamp(score,0,100)/100)` — the integer base point `lo` is
added *outside* the round-half-to-even rounding — clamped into `[lo, hi]`, and
whenever `AUTO_LEVERAGE_MIN ≤ AUTO_LEVERAGE_MAX` it lies between them. -/
theorem C7_risk_sizing_amended :
    (∀ (m p : ℚ) (lev : ℤ), 0 ≤ m → 1 ≤ lev → 0 < p →
        min_qty_from_min_margin_usdt m p lev 6
            = (⌈m * (lev : ℚ) / p * 10 ^ 6⌉ : ℚ) / 10 ^ 6
          ∧ m * (lev : ℚ) ≤ min_qty_from_min_margin_usdt m p lev 6 * p)
  ∧ (∀ (m p : ℚ) (lev : ℤ), p ≤ 0 → min_qty_from_min_margin_usdt m p lev 6 = 0)
  ∧ (∀ (lo hi : ℤ) (s : ℚ), lo ≤ hi →
        lo ≤ leverage_from_score lo hi s ∧ leverage_from_score lo hi s ≤ hi)
  ∧ (∀ (lo hi : ℤ) (s : ℚ), lo ≤ hi →
        leverage_from_score lo hi s
          = max lo (min hi (lo + py_round_half_even (((hi : ℚ) - (lo : ℚ)) * (clamp s 0 100 / 100))))) :=
  ⟨fun m p lev hm hl hp => ⟨min_qty_eq m p lev hm hl hp, min_qty_notional m p lev hm hl hp⟩,
   fun m p lev hp => min_qty_nonpos_price m p lev hp,
   fun lo hi s h => leverage_bounds lo hi s h,
   fun lo hi s h => leverage_formula lo hi s h⟩

/-- Witness for C7 amended at concrete inputs. -/
theorem C7_risk_sizing_amended_witness :
    (min_qty_from_min_margin_usdt 50 30000 10 6
        = (⌈(50 : ℚ) * ((10 : ℤ) : ℚ) / 30000 * 10 ^ 6⌉ : ℚ) / 10 ^ 6
      ∧ (50 : ℚ) * ((10 : ℤ) : ℚ) ≤ min_qty_from_min_margin_usdt 50 30000 10 6 * 30000)
    ∧ min_qty_from_min_margin_usdt 50 0 10 6 = 0
    ∧ ((10 : ℤ) ≤ leverage_from_score 10 20 45 ∧ leverage_from_score 10 20 45 ≤ 20)
    ∧ leverage_from_score 10 20 45
        = max 10 (min 20 (10 + py_round_half_even ((((20 : ℤ) : ℚ) - ((10 : ℤ) : ℚ)) * (clamp 45 0 100 / 100)))) :=
  ⟨C7_risk_sizing_amended.1 50 30000 10 (by norm_num) (by norm_num) (by norm_num),
   C7_risk_sizing_amended.2.1 50 0 10 (le_refl 0),
   C7_risk_sizing_amended.2.2.1 10 20 45 (by norm_num),
   C7_risk_sizing_amended.2.2.2 10 20 45 (by norm_num)⟩

/-! ## Claim C8 -/

lemma rsi_gate_iff (o : Option ℚ) :
    (match o with
      | none => true
      | some r => decide (r < 70)) = true
      ↔ (o = none ∨ ∃ r, o = some r ∧ r < 70) := by
  cases o <;> simp

/-- C8: with both EMAs present, Setup B is BUY exactly when
`ema_fast > ema_slow` and (`rsi` is null or `rsi < 70`), SELL exactly when
`ema_fast < ema_slow`, and null in all other cases; with either EMA missing it
is null. -/
theorem C8_setup_b_signal_characterization :
    (∀ (l : LatestBar) (f s : ℚ), l.ema_fast = some f → l.ema_slow = some s →
        ((setup_b_signal l = some Side.BUY
            ↔ s < f ∧ (l.rsi = none ∨ ∃ r, l.rsi = some r ∧ r < 70))
          ∧ (setup_b_signal l = some Side.SELL ↔ f < s)
          ∧ (setup_b_signal l = none
              ↔ ¬(s < f ∧ (l.rsi = none ∨ ∃ r, l.rsi = some r ∧ r < 70)) ∧ ¬f < s)))
  ∧ (∀ l : LatestBar, (l.ema_fast = none ∨ l.ema_slow = none) → setup_b_signal l = none) := by
  constructor
  · intro l f s hf hs
    have hg := rsi_gate_iff l.rsi
    simp only [setup_b_signal, hf, hs]
    split_ifs with h1 h2
    · refine ⟨?_, ?_, ?_⟩
      · simp only [Option.some.injEq, true_iff]
        exact ⟨h1.1, hg.mp h1.2⟩
      · constructor
        · intro h
          cases h
        · intro h
          exact absurd h (lt_asymm h1.1)
      · constructor
        · intro h
          cases h
        · intro h
          exact absurd ⟨h1.1, hg.mp h1.2⟩ h.1
    · refine ⟨?_, ?_, ?_⟩
      · constructor
        · intro h
          cases h
        · intro h
          exact absurd ⟨h.1, hg.mpr h.2⟩ h1
      · exact iff_of_true rfl h2
      · constructor
        · intro h
          cases h
        · intro h
          exact absurd h2 h.2
    · refine ⟨?_, ?_, ?_⟩
      · constructor
        · intro h
          cases h
        · intro h
          exact absurd ⟨h.1, hg.mpr h.2⟩ h1
      · constructor
        · intro h
          cases h
        · intro h
          exact absurd h h2
      · simp only [true_iff]
        exact ⟨fun hh => h1 ⟨hh.1, hg.mpr hh.2⟩, h2⟩
  · intro l h
    rcases h with h | h
    · simp [setup_b_signal, h]
    · cases he : l.ema_fast <;> simp [setup_b_signal, h, he]

/-- Witness for C8 at concrete bars. -/
theorem C8_setup_b_signal_characterization_witness :
    ((setup_b_signal latest0 = some Side.BUY
        ↔ (100 : ℚ) < 101 ∧ (latest0.rsi = none ∨ ∃ r, latest0.rsi = some r ∧ r < 70))
      ∧ (setup_b_signal latest0 = some Side.SELL ↔ (101 : ℚ) < 100)
      ∧ (setup_b_signal latest0 = none
          ↔ ¬((100 : ℚ) < 101 ∧ (latest0.rsi = none ∨ ∃ r, latest0.rsi = some r ∧ r < 70))
            ∧ ¬(101 : ℚ) < 100))
    ∧ setup_b_signal latest_low = none :=
  ⟨C8_setup_b_signal_characterization.1 latest0 101 100 rfl rfl,
   C8_setup_b_signal_characterization.2 latest_low (Or.inl rfl)⟩

/-! ## Claim C10 -/

lemma robot_score_shape (l : RawLatest) (sig : Side) :
    compute_robot_score l sig = 50 ∨ ∃ v, compute_robot_score l sig = clamp v 0 100 := by
  unfold compute_robot_score
  split
  · exact Or.inl rfl
  · split
    · exact Or.inl rfl
    · split
      · split
        · split
          · exact Or.inr ⟨_, rfl⟩
          · exact Or.inl rfl
        · exact Or.inl rfl
      · exact Or.inl rfl

lemma robot_score_close_none (l : RawLatest) (sig : Side) (h : l.close_price = none) :
    compute_robot_score l sig = 50 := by
  simp [compute_robot_score, h, py_get_or, py_float]

lemma robot_score_close_nonpos (l : RawLatest) (sig : Side) (q : ℚ)
    (h : l.close_price = some (.num q)) (hq : q ≤ 0) : compute_robot_score l sig = 50 := by
  by_cases h0 : q = 0
  · simp [compute_robot_score, h, py_get_or, py_truthy, py_float, h0]
  · simp [compute_robot_score, h, py_get_or, py_truthy, py_float, h0, hq]

lemma robot_score_close_str (l : RawLatest) (sig : Side) (s : String)
    (h : l.close_price = some (.nonNumStr s)) : compute_robot_score l sig = 50 := by
  by_cases h0 : s = ""
  · simp [compute_robot_score, h, py_get_or, py_truthy, py_float, h0]
  · simp [compute_robot_score, h, py_get_or, py_truthy, py_float, h0]

lemma robot_score_fast_none (l : RawLatest) (sig : Side) (h : l.ema_fast = none) :
    compute_robot_score l sig = 50 := by
  unfold compute_robot_score
  split
  · rfl
  · split
    · rfl
    · rename_i hcond
      exact absurd (Or.inr (Or.inl h)) hcond

lemma robot_score_slow_none (l : RawLatest) (sig : Side) (h : l.ema_slow = none) :
    compute_robot_score l sig = 50 := by
  unfold compute_robot_score
  split
  · rfl
  · split
    · rfl
    · rename_i hcond
      exact absurd (Or.inr (Or.inr h)) hcond

lemma robot_score_fast_str (l : RawLatest) (sig : Side) (s : String)
    (h : l.ema_fast = some (.nonNumStr s)) : compute_robot_score l sig = 50 := by
  unfold compute_robot_score
  split
  · rfl
  · split
    · rfl
    · rcases hes : l.ema_slow with _ | v
      · rename_i hcond
        exact absurd (Or.inr (Or.inr hes)) hcond
      · simp [h, hes, py_float]

lemma robot_score_slow_str (l : RawLatest) (sig : Side) (s : String)
    (h : l.ema_slow = some (.nonNumStr s)) : compute_robot_score l sig = 50 := by
  unfold compute_robot_score
  split
  · rfl
  · split
    · rfl
    · rcases hef : l.ema_fast with _ | v
      · rename_i hcond
        exact absurd (Or.inr (Or.inl hef)) hcond
      · rcases v with qf | sf <;> simp [hef, h, py_float]

lemma robot_score_rsi_str (l : RawLatest) (sig : Side) (s : String)
    (h : l.rsi = some (.nonNumStr s)) : compute_robot_score l sig = 50 := by
  unfold compute_robot_score
  split
  · rfl
  · split
    · rfl
    · rcases hef : l.ema_fast with _ | vf
      · rename_i hcond
        exact absurd (Or.inr (Or.inl hef)) hcond
      · rcases hes : l.ema_slow with _ | vs
        · rename_i hcond
          exact absurd (Or.inr (Or.inr hes)) hcond
        · rcases vf with qf | sf <;> rcases vs with qs | ss <;>
            simp [hef, hes, h, py_float]

/-- C10: `compute_robot_score` is total on arbitrary latest-bar dict values and
always lands in `[0, 100]`; a missing or non-positive close, a missing EMA, or
any failing numeric conversion yields the neutral 50. -/
theorem C10_robot_score_total_bounded :
    (∀ (l : RawLatest) (sig : Side),
        0 ≤ compute_robot_score l sig ∧ compute_robot_score l sig ≤ 100)
  ∧ (∀ (l : RawLatest) (sig : Side),
        (l.close_price = none
          ∨ (∃ q, l.close_price = some (.num q) ∧ q ≤ 0)
          ∨ (∃ s, l.close_price = some (.nonNumStr s))
          ∨ l.ema_fast = none
          ∨ l.ema_slow = none
          ∨ (∃ s, l.ema_fast = some (.nonNumStr s))
          ∨ (∃ s, l.ema_slow = some (.nonNumStr s))
          ∨ (∃ s, l.rsi = some (.nonNumStr s))) →
        compute_robot_score l sig = 50) := by
  constructor
  · intro l sig
    rcases robot_score_shape l sig with h | ⟨v, h⟩
    · rw [h]
      norm_num
    · rw [h]
      exact clamp_mem v 0 100 (by norm_num)
  · intro l sig h
    rcases h with h | ⟨q, h, hq⟩ | ⟨s, h⟩ | h | h | ⟨s, h⟩ | ⟨s, h⟩ | ⟨s, h⟩
    · exact robot_score_close_none l sig h
    · exact robot_score_close_nonpos l sig q h hq
    · exact robot_score_close_str l sig s h
    · exact robot_score_fast_none l sig h
    · exact robot_score_slow_none l sig h
    · exact robot_score_fast_str l sig s h
    · exact robot_score_slow_str l sig s h
    · exact robot_score_rsi_str l sig s h

/-- Witness for C10 at a concrete malformed bar. -/
theorem C10_robot_score_total_bounded_witness :
    (0 ≤ compute_robot_score { close_price := none, ema_fast := none, ema_slow := none, rsi := none } Side.BUY
      ∧ compute_robot_score { close_price := none, ema_fast := none, ema_slow := none, rsi := none } Side.BUY ≤ 100)
    ∧ compute_robot_score { close_price := none, ema_fast := none, ema_slow := none, rsi := none } Side.BUY = 50 :=
  ⟨C10_robot_score_total_bounded.1 _ Side.BUY,
   C10_robot_score_total_bounded.2 _ Side.BUY (Or.inl rfl)⟩

/-! ## Claim C9 -/

lemma atr_step_seed (ap dp : ℕ) (s : AtrAdxState) (b : Bar) (pc ph pl : ℚ)
    (hc : s.prev_close = some pc) (hh : s.prev_high = some ph) (hl : s.prev_low = some pl)
    (ha : s.atr = none)
    (hlen : (deque_push ap s.tr_list (tr_of b pc)).length = ap) :
    (atr_adx_step ap dp s b).atr
      = some ((deque_push ap s.tr_list (tr_of b pc)).sum / (ap : ℚ)) := by
  simp [atr_adx_step, hc, hh, hl, ha, hlen]

lemma atr_step_update (ap dp : ℕ) (s : AtrAdxState) (b : Bar) (pc ph pl a : ℚ)
    (hc : s.prev_close = some pc) (hh : s.prev_high = some ph) (hl : s.prev_low = some pl)
    (ha : s.atr = some a) :
    (atr_adx_step ap dp s b).atr = some (wilder_sum_update ap a (tr_of b pc)) := by
  simp [atr_adx_step, hc, hh, hl, ha]

lemma wilder_sum_vs_avg (p : ℕ) (hp : 0 < p) (prev v : ℚ) :
    wilder_sum_update p prev v = (prev * ((p : ℚ) - 1) + (p : ℚ) * v) / (p : ℚ) := by
  have hp0 : (p : ℚ) ≠ 0 := Nat.cast_ne_zero.mpr hp.ne'
  field_simp [wilder_sum_update]
  ring

lemma adx_step_update (ap dp : ℕ) (s : AtrAdxState) (b : Bar) (pc ph pl a ad : ℚ)
    (hc : s.prev_close = some pc) (hh : s.prev_high = some ph) (hl : s.prev_low = some pl)
    (ha : s.atr = some a) (hadx : s.adx = some ad)
    (hz : wilder_sum_update ap a (tr_of b pc) ≠ 0)
    (hden : 100 * (wilder_sum_update ap (s.plus_dm_s.getD 0) (plus_dm_of b ph pl)
            / wilder_sum_update ap a (tr_of b pc))
          + 100 * (wilder_sum_update ap (s.minus_dm_s.getD 0) (minus_dm_of b ph pl)
            / wilder_sum_update ap a (tr_of b pc)) ≠ 0) :
    (atr_adx_step ap dp s b).adx
      = some ((ad * ((dp : ℚ) - 1)
          + 100 * py_abs
              (100 * (wilder_sum_update ap (s.plus_dm_s.getD 0) (plus_dm_of b ph pl)
                / wilder_sum_update ap a (tr_of b pc))
              - 100 * (wilder_sum_update ap (s.minus_dm_s.getD 0) (minus_dm_of b ph pl)
                / wilder_sum_update ap a (tr_of b pc)))
            / (100 * (wilder_sum_update ap (s.plus_dm_s.getD 0) (plus_dm_of b ph pl)
                / wilder_sum_update ap a (tr_of b pc))
              + 100 * (wilder_sum_update ap (s.minus_dm_s.getD 0) (minus_dm_of b ph pl)
                / wilder_sum_update ap a (tr_of b pc)))) / (dp : ℚ)) := by
  simp [atr_adx_step, hc, hh, hl, ha, hadx, hz, hden]

lemma adx_step_seed (ap dp : ℕ) (s : AtrAdxState) (b : Bar) (pc ph pl a : ℚ)
    (hc : s.prev_close = some pc) (hh : s.prev_high = some ph) (hl : s.prev_low = some pl)
    (ha : s.atr = some a) (hadx : s.adx = none)
    (hz : wilder_sum_update ap a (tr_of b pc) ≠ 0)
    (hden : 100 * (wilder_sum_update ap (s.plus_dm_s.getD 0) (plus_dm_of b ph pl)
            / wilder_sum_update ap a (tr_of b pc))
          + 100 * (wilder_sum_update ap (s.minus_dm_s.getD 0) (minus_dm_of b ph pl)
            / wilder_sum_update ap a (tr_of b pc)) ≠ 0)
    (hlen : (deque_push dp s.dx_list
        (100 * py_abs
            (100 * (wilder_sum_update ap (s.plus_dm_s.getD 0) (plus_dm_of b ph pl)
              / wilder_sum_update ap a (tr_of b pc))
            - 100 * (wilder_sum_update ap (s.minus_dm_s.getD 0) (minus_dm_of b ph pl)
              / wilder_sum_update ap a (tr_of b pc)))
          / (100 * (wilder_sum_update ap (s.plus_dm_s.getD 0) (plus_dm_of b ph pl)
              / wilder_sum_update ap a (tr_of b pc))
            + 100 * (wilder_sum_update ap (s.minus_dm_s.getD 0) (minus_dm_of b ph pl)
              / wilder_sum_update ap a (tr_of b pc))))).length = dp)  :
    (atr_adx_step ap dp s b).adx
      = some ((deque_push dp s.dx_list
          (100 * py_abs
              (100 * (wilder_sum_update ap (s.plus_dm_s.getD 0) (plus_dm_of b ph pl)
                / wilder_sum_update ap a (tr_of b pc))
              - 100 * (wilder_sum_update ap (s.minus_dm_s.getD 0) (minus_dm_of b ph pl)
                / wilder_sum_update ap a (tr_of b pc)))
            / (100 * (wilder_sum_update ap (s.plus_dm_s.getD 0) (plus_dm_of b ph pl)
                / wilder_sum_update ap a (tr_of b pc))
              + 100 * (wilder_sum_update ap (s.minus_dm_s.getD 0) (minus_dm_of b ph pl)
                / wilder_sum_update ap a (tr_of b pc))))).sum / (dp : ℚ)) := by
  simp [atr_adx_step, hc, hh, hl, ha, hadx, hz, hden, hlen]

/-- C9 counterexample: on 16 ascending bars whose true ranges are all 1, the
seed is the mean 1, but the next atr is `1 − 1/14 + 1 = 27/14`, not the claimed
`(1·13 + 1)/14 = 1`. -/
theorem C9_atr_recurrence_counterexample :
    (atr_adx_run 14 14 (c9_bars.take 15)).atr = some 1
    ∧ (atr_adx_run 14 14 c9_bars).atr = some (27 / 14)
    ∧ wilder_avg_update 14 1 1 = 1
    ∧ (27 : ℚ) / 14 ≠ 1 := by
  refine ⟨?_, ?_, ?_, ?_⟩
  all_goals norm_num [atr_adx_run, c9_bars, atr_adx_step, atr_adx_init, deque_push, tr_of,
    plus_dm_of, minus_dm_of, wilder_sum_update, wilder_avg_update, py_abs, List.range_succ]
  rw [if_neg (Option.some_ne_none (1 : ℚ))]

/-- C9 amended: `atr14` is seeded with the arithmetic mean of the first 14 true
ranges, but thereafter follows the smoothed-*sum* update
`atr_n = atr_{n−1} − atr_{n−1}/14 + TR_n = (atr_{n−1}·13 + 14·TR_n)/14`, not
the claimed average recurrence `(atr_{n−1}·13 + TR_n)/14`; `adx14` is seeded
with the arithmetic mean of the first 14 DX values and thereafter does follow
the Wilder average recurrence `adx_n = (adx_{n−1}·13 + DX_n)/14`. -/
theorem C9_wilder_smoothing_amended :
    (∀ (ap dp : ℕ) (s : AtrAdxState) (b : Bar) (pc ph pl : ℚ),
        s.prev_close = some pc → s.prev_high = some ph → s.prev_low = some pl →
        s.atr = none → (deque_push ap s.tr_list (tr_of b pc)).length = ap →
        (atr_adx_step ap dp s b).atr
          = some ((deque_push ap s.tr_list (tr_of b pc)).sum / (ap : ℚ)))
  ∧ (∀ (ap dp : ℕ) (s : AtrAdxState) (b : Bar) (pc ph pl a : ℚ),
        s.prev_close = some pc → s.prev_high = some ph → s.prev_low = some pl →
        s.atr = some a →
        (atr_adx_step ap dp s b).atr = some (wilder_sum_update ap a (tr_of b pc)))
  ∧ (∀ (p : ℕ), 0 < p → ∀ prev v : ℚ,
        wilder_sum_update p prev v = (prev * ((p : ℚ) - 1) + (p : ℚ) * v) / (p : ℚ))
  ∧ (∀ (ap dp : ℕ) (s : AtrAdxState) (b : Bar) (pc ph pl a ad : ℚ),
        s.prev_close = some pc → s.prev_high = some ph → s.prev_low = some pl →
        s.atr = some a → s.adx = some ad →
        wilder_sum_update ap a (tr_of b pc) ≠ 0 →
        100 * (wilder_sum_update ap (s.plus_dm_s.getD 0) (plus_dm_of b ph pl)
            / wilder_sum_update ap a (tr_of b pc))
          + 100 * (wilder_sum_update ap (s.minus_dm_s.getD 0) (minus_dm_of b ph pl)
            / wilder_sum_update ap a (tr_of b pc)) ≠ 0 →
        (atr_adx_step ap dp s b).adx
          = some ((ad * ((dp : ℚ) - 1)
              + 100 * py_abs
                  (100 * (wilder_sum_update ap (s.plus_dm_s.getD 0) (plus_dm_of b ph pl)
                    / wilder_sum_update ap a (tr_of b pc))
                  - 100 * (wilder_sum_update ap (s.minus_dm_s.getD 0) (minus_dm_of b ph pl)
                    / wilder_sum_update ap a (tr_of b pc)))
                / (100 * (wilder_sum_update ap (s.plus_dm_s.getD 0) (plus_dm_of b ph pl)
                    / wilder_sum_update ap a (tr_of b pc))
                  + 100 * (wilder_sum_update ap (s.minus_dm_s.getD 0) (minus_dm_of b ph pl)
                    / wilder_sum_update ap a (tr_of b pc)))) / (dp : ℚ)))
  ∧ (∀ (ap dp : ℕ) (s : AtrAdxState) (b : Bar) (pc ph pl a : ℚ),
        s.prev_close = some pc → s.prev_high = some ph → s.prev_low = some pl →
        s.atr = some a → s.adx = none →
        wilder_sum_update ap a (tr_of b pc) ≠ 0 →
        100 * (wilder_sum_update ap (s.plus_dm_s.getD 0) (plus_dm_of b ph pl)
            / wilder_sum_update ap a (tr_of b pc))
          + 100 * (wilder_sum_update ap (s.minus_dm_s.getD 0) (minus_dm_of b ph pl)
            / wilder_sum_update ap a (tr_of b pc)) ≠ 0 →
        (deque_push dp s.dx_list
            (100 * py_abs
                (100 * (wilder_sum_update ap (s.plus_dm_s.getD 0) (plus_dm_of b ph pl)
                  / wilder_sum_update ap a (tr_of b pc))
                - 100 * (wilder_sum_update ap (s.minus_dm_s.getD 0) (minus_dm_of b ph pl)
                  / wilder_sum_update ap a (tr_of b pc)))
              / (100 * (wilder_sum_update ap (s.plus_dm_s.getD 0) (plus_dm_of b ph pl)
                  / wilder_sum_update ap a (tr_of b pc))
                + 100 * (wilder_sum_update ap (s.minus_dm_s.getD 0) (minus_dm_of b ph pl)
                  / wilder_sum_update ap a (tr_of b pc))))).length = dp →
        (atr_adx_step ap dp s b).adx
          = some ((deque_push dp s.dx_list
              (100 * py_abs
                  (100 * (wilder_sum_update ap (s.plus_dm_s.getD 0) (plus_dm_of b ph pl)
                    / wilder_sum_update ap a (tr_of b pc))
                  - 100 * (wilder_sum_update ap (s.minus_dm_s.getD 0) (minus_dm_of b ph pl)
                    / wilder_sum_update ap a (tr_of b pc)))
                / (100 * (wilder_sum_update ap (s.plus_dm_s.getD 0) (plus_dm_of b ph pl)
                    / wilder_sum_update ap a (tr_of b pc))
                  + 100 * (wilder_sum_update ap (s.minus_dm_s.getD 0) (minus_dm_of b ph pl)
                    / wilder_sum_update ap a (tr_of b pc))))).sum / (dp : ℚ))) :=
  ⟨atr_step_seed, atr_step_update, wilder_sum_vs_avg,
   fun ap dp s b pc ph pl a ad hc hh hl ha hadx hz hden =>
     adx_step_update ap dp s b pc ph pl a ad hc hh hl ha hadx hz hden,
   fun ap dp s b pc ph pl a hc hh hl ha hadx hz hden hlen =>
     adx_step_seed ap dp s b pc ph pl a hc hh hl ha hadx hz hden hlen⟩

/-- Witness for C9 amended at concrete states. -/
theorem C9_wilder_smoothing_amended_witness :
    (atr_adx_step 14 14 c9_s0 c9_bw).atr
        = some ((deque_push 14 c9_s0.tr_list (tr_of c9_bw 0)).sum / ((14 : ℕ) : ℚ))
    ∧ (atr_adx_step 14 14 c9_s2 c9_bw).atr = some (wilder_sum_update 14 0 (tr_of c9_bw 0))
    ∧ wilder_sum_update 2 1 1 = ((1 : ℚ) * (((2 : ℕ) : ℚ) - 1) + ((2 : ℕ) : ℚ) * 1) / ((2 : ℕ) : ℚ)
    ∧ (atr_adx_step 14 14 c9_s2 c9_bw).adx
        = some (((50 : ℚ) * (((14 : ℕ) : ℚ) - 1)
            + 100 * py_abs
                (100 * (wilder_sum_update 14 (c9_s2.plus_dm_s.getD 0) (plus_dm_of c9_bw 0 0)
                  / wilder_sum_update 14 0 (tr_of c9_bw 0))
                - 100 * (wilder_sum_update 14 (c9_s2.minus_dm_s.getD 0) (minus_dm_of c9_bw 0 0)
                  / wilder_sum_update 14 0 (tr_of c9_bw 0)))
              / (100 * (wilder_sum_update 14 (c9_s2.plus_dm_s.getD 0) (plus_dm_of c9_bw 0 0)
                  / wilder_sum_update 14 0 (tr_of c9_bw 0))
                + 100 * (wilder_sum_update 14 (c9_s2.minus_dm_s.getD 0) (minus_dm_of c9_bw 0 0)
                  / wilder_sum_update 14 0 (tr_of c9_bw 0)))) / ((14 : ℕ) : ℚ))
    ∧ (atr_adx_step 14 14 c9_s3 c9_bw).adx
        = some ((deque_push 14 c9_s3.dx_list
            (100 * py_abs
                (100 * (wilder_sum_update 14 (c9_s3.plus_dm_s.getD 0) (plus_dm_of c9_bw 0 0)
                  / wilder_sum_update 14 0 (tr_of c9_bw 0))
                - 100 * (wilder_sum_update 14 (c9_s3.minus_dm_s.getD 0) (minus_dm_of c9_bw 0 0)
                  / wilder_sum_update 14 0 (tr_of c9_bw 0)))
              / (100 * (wilder_sum_update 14 (c9_s3.plus_dm_s.getD 0) (plus_dm_of c9_bw 0 0)
                  / wilder_sum_update 14 0 (tr_of c9_bw 0))
                + 100 * (wilder_sum_update 14 (c9_s3.minus_dm_s.getD 0) (minus_dm_of c9_bw 0 0)
                  / wilder_sum_update 14 0 (tr_of c9_bw 0))))).sum / ((14 : ℕ) : ℚ)) :=
  ⟨C9_wilder_smoothing_amended.1 14 14 c9_s0 c9_bw 0 0 0 rfl rfl rfl rfl (by
      norm_num [c9_s0, atr_adx_init, deque_push, tr_of, py_abs]),
   C9_wilder_smoothing_amended.2.1 14 14 c9_s2 c9_bw 0 0 0 0 rfl rfl rfl rfl,
   C9_wilder_smoothing_amended.2.2.1 2 (by norm_num) 1 1,
   C9_wilder_smoothing_amended.2.2.2.1 14 14 c9_s2 c9_bw 0 0 0 0 50 rfl rfl rfl rfl rfl
     (by norm_num [wilder_sum_update, tr_of, c9_bw, py_abs])
     (by norm_num [wilder_sum_update, tr_of, plus_dm_of, minus_dm_of, c9_bw, c9_s2, c9_s0,
       atr_adx_init, py_abs]),
   C9_wilder_smoothing_amended.2.2.2.2 14 14 c9_s3 c9_bw 0 0 0 0 rfl rfl rfl rfl rfl
     (by norm_num [wilder_sum_update, tr_of, c9_bw, py_abs])
     (by norm_num [wilder_sum_update, tr_of, plus_dm_of, minus_dm_of, c9_bw, c9_s3, c9_s2,
       c9_s0, atr_adx_init, py_abs])
     (by norm_num [deque_push, c9_s3, c9_s2, c9_s0, atr_adx_init])⟩

/-! ## Claim C2 -/

lemma find_map_upsert (l : List (String × String)) (k v : String) :
    (l.map (fun p => if p.1 == k then (k, v) else p)).find? (fun p => p.1 == k)
      = ((l.find? (fun p => p.1 == k)).map (fun _ => (k, v))) := by
  induction l with
  | nil => rfl
  | cons p t ih =>
    simp only [List.map_cons]
    by_cases hp : p.1 == k
    · rw [if_pos hp]
      have h1 : (((k, v) : String × String).1 == k) = true := by simp
      simp only [List.find?, h1, hp, Option.map_some']
    · have hf : (p.1 == k) = false := by simpa using hp
      rw [if_neg hp]
      simp only [List.find?, hf]
      exact ih

lemma cfg_lookup_upsert (l : List (String × String)) (k v : String) :
    cfg_lookup (cfg_upsert l k v) k = some v := by
  unfold cfg_upsert cfg_lookup
  split
  case isTrue h =>
    rw [find_map_upsert]
    obtain ⟨x, hx, hpx⟩ := List.any_eq_true.mp h
    cases hfind : l.find? (fun p => p.1 == k) with
    | none =>
      have := List.find?_eq_none.mp hfind x hx
      simp [hpx] at this
    | some q => simp
  case isFalse h =>
    have hnone : l.find? (fun p => p.1 == k) = none := by
      rw [List.find?_eq_none]
      intro x hx hpx
      exact h (List.any_eq_true.mpr ⟨x, hx, hpx⟩)
    rw [List.find?_append, hnone]
    simp

/-- C2 counterexample: a tick observed with `EMERGENCY_EXIT = true` (and an
open position) ends by writing `EMERGENCY_EXIT = false` into `system_config`
through the bare `set_flag`, and the run inserts no `config_audit` row at all —
the claimed paired audit row for this write does not exist. -/
theorem C2_emergency_clear_unaudited_counterexample :
    get_flag db_c2 emergencyKey falseLit = trueLit
    ∧ 0 < latest_qty db_c2 sBTC
    ∧ cfg_lookup (strategy_tick env0 st0 db_c2).system_config emergencyKey = some falseLit
    ∧ (strategy_tick env0 st0 db_c2).config_audit = [] :=
  ⟨rfl, by decide, rfl, rfl⟩

/-- C2 amended: writes that go through `write_system_config` (the AI-model
persistence, the admin plane) insert the paired `config_audit` row with the
same cfg_key, new value, trace id and reason code in the same transaction; but
the strategy engine clears `EMERGENCY_EXIT` at end of tick with the bare
`set_flag`, which writes `system_config` alone and never touches
`config_audit`. -/
theorem C2_config_audit_amended :
    (∀ (db : Db) (actor key value trace_id reason_code reason action : String),
        (write_system_config db actor key value trace_id reason_code reason action).config_audit
            = db.config_audit
              ++ [{ actor := actor, action := action, cfg_key := key
                    old_value := cfg_lookup db.system_config key, new_value := value
                    trace_id := trace_id, reason_code := reason_code, reason := reason }]
          ∧ cfg_lookup
              (write_system_config db actor key value trace_id reason_code reason action).system_config
              key = some value)
  ∧ (∀ (db : Db) (key value : String),
        (set_flag db key value).config_audit = db.config_audit
          ∧ cfg_lookup (set_flag db key value).system_config key = some value) :=
  ⟨fun db actor key value tid rc r act =>
    ⟨rfl, cfg_lookup_upsert db.system_config key value⟩,
   fun db key value => ⟨rfl, cfg_lookup_upsert db.system_config key value⟩⟩

/-! ## Claim C3 -/

/-- C3 counterexample: with `HALT_TRADING = true`, `EMERGENCY_EXIT = true` and
an open position, the tick leaves the DB exactly as it was — no SELL order
event is appended and the emergency flag is not even cleared; the claimed
"emergency-exit logic still runs" does not. -/
theorem C3_halt_blocks_emergency_counterexample :
    get_flag db_c3 haltKey falseLit = trueLit
    ∧ get_flag db_c3 emergencyKey falseLit = trueLit
    ∧ 0 < latest_qty db_c3 sBTC
    ∧ strategy_tick env0 st0 db_c3 = db_c3
    ∧ db_c3.order_events = [] :=
  ⟨rfl, rfl, by decide, rfl, rfl⟩

/-- C3 amended: when `HALT_TRADING` reads true at the start of a tick the
engine skips the tick entirely — no new orders, and the emergency-exit logic
does not run either (the whole per-symbol loop, including the `EMERGENCY_EXIT`
handling and its end-of-tick clear, is behind the halt check). -/
theorem C3_halt_skips_whole_tick_amended :
    ∀ (env : Env) (st : StratSettings) (db : Db),
      get_flag db haltKey falseLit = trueLit → strategy_tick env st db = db := by
  intro env st db h
  unfold strategy_tick
  rw [if_pos h]

/-- Witness for C3 amended. -/
theorem C3_halt_skips_whole_tick_amended_witness :
    strategy_tick env0 st0 db_c3 = db_c3 :=
  C3_halt_skips_whole_tick_amended env0 st0 db_c3 rfl

/-! ## Claim C6 -/

/-- C6 counterexample: two symbols both in stop-loss condition; the exchange
call for the first (`sBTC`) raises.  The tick ends with only `sBTC`'s CREATED
event — `sETH`, whose stop-loss condition also held, is never processed in that
tick, contradicting "an exception ... does not prevent the remaining symbols of
that same tick from being processed". -/
theorem C6_per_symbol_error_counterexample :
    0 < latest_qty db_c6 sETH
    ∧ db_c6.latest sETH 15 = some latest_low
    ∧ latest_low.close_price ≤ 97
    ∧ ((strategy_tick env_fail st_two db_c6).order_events.map
        (fun e => (e.symbol, e.event_type, e.reason_code)))
        = [(sBTC, OrderEventType.CREATED, ReasonCode.STOP_LOSS)]
    ∧ ((strategy_tick env_fail st_two db_c6).order_events.filter
        (fun e => e.symbol == sETH)) = [] :=
  ⟨by decide, rfl, by decide, rfl, rfl⟩

/-- C6 amended: in the data syncer an exception inside one symbol's sync cycle
is caught inside `sync_symbol_once` (recording an ERROR heartbeat), so the
cycle goes on to the remaining symbols; in the strategy engine there is no
per-symbol handler — an exception aborts the remaining symbols of that tick —
but the tick-level handler catches it, so the service loop continues with the
state as of the raise point. -/
theorem C6_error_containment_amended :
    (∀ (env : SyncEnv) (ims : ℤ) (iid : String) (db : SyncDb) (sym msg : String),
        env.fetch_klines sym ims ((latest_open_time db sym ims).map (· + ims * 60000)) 1000
            = .error msg →
        sync_symbol_once env ims iid db sym = upsert_heartbeat db iid (HbStatus.ERR sym msg))
  ∧ (∀ (env : SyncEnv) (ims : ℤ) (iid : String) (db : SyncDb) (s : String) (rest : List String),
        sync_cycle env ims iid db (s :: rest)
          = sync_cycle env ims iid (sync_symbol_once env ims iid db s) rest)
  ∧ (∀ (env : Env) (st : StratSettings) (sel : List String) (m : String → Option CandMeta)
        (db : Db) (cnt : ℤ) (s : String) (rest : List String) (msg : String) (db2 : Db) (cnt2 : ℤ),
        symbol_step env st sel m db cnt s = .exn msg db2 cnt2 →
        run_symbols env st sel m db cnt (s :: rest) = .exn msg db2 cnt2)
  ∧ (∀ (env : Env) (st : StratSettings) (db : Db) (msg : String) (db2 : Db) (cnt2 : ℤ),
        get_flag db haltKey falseLit ≠ trueLit →
        run_symbols env st (select_syms env st (reconcile_stale_orders env st.exchange db))
            (sel_meta env st (reconcile_stale_orders env st.exchange db))
            (reconcile_stale_orders env st.exchange db)
            ((open_count (reconcile_stale_orders env st.exchange db) st.symbols : ℤ))
            st.symbols
          = .exn msg db2 cnt2 →
        strategy_tick env st db = db2) := by
  refine ⟨?_, ?_, ?_, ?_⟩
  · intro env ims iid db sym msg h
    simp only [sync_symbol_once, h]
  · intro env ims iid db s rest
    rfl
  · intro env st sel m db cnt s rest msg db2 cnt2 h
    simp only [run_symbols, h]
  · intro env st db msg db2 cnt2 hhalt hrun
    simp only [strategy_tick]
    rw [if_neg hhalt, hrun]

/-- Witness for C6 amended at concrete inputs. -/
theorem C6_error_containment_amended_witness :
    sync_symbol_once env_sync_fail 15 "i1" db_sync0 sBTC
        = upsert_heartbeat db_sync0 "i1" (HbStatus.ERR sBTC eBoom)
    ∧ sync_cycle env_sync_fail 15 "i1" db_sync0 (sBTC :: [sETH])
        = sync_cycle env_sync_fail 15 "i1" (sync_symbol_once env_sync_fail 15 "i1" db_sync0 sBTC) [sETH]
    ∧ run_symbols env_fail st_two [] (fun _ => none) db_c6 0 (sBTC :: [sETH])
        = .exn eBoom db_c6_mid 0
    ∧ strategy_tick env_fail st_two db_c6 = db_c6_mid :=
  ⟨C6_error_containment_amended.1 env_sync_fail 15 "i1" db_sync0 sBTC eBoom rfl,
   C6_error_containment_amended.2.1 env_sync_fail 15 "i1" db_sync0 sBTC [sETH],
   C6_error_containment_amended.2.2.1 env_fail st_two [] (fun _ => none) db_c6 0 sBTC [sETH]
     eBoom db_c6_mid 0 rfl,
   C6_error_containment_amended.2.2.2 env_fail st_two db_c6 eBoom db_c6_mid 2
     (by decide) rfl⟩

/-! ## Claim C4 -/

lemma same_event_key_eq_false {r e : OrderEvent}
    (h : ¬(r.exchange = e.exchange ∧ r.symbol = e.symbol
        ∧ r.client_order_id = e.client_order_id)) :
    same_event_key r e = false := by
  rw [Bool.eq_false_iff]
  intro hk
  simp only [same_event_key, Bool.and_eq_true, beq_iff_eq] at hk
  exact h ⟨hk.1.1.1, hk.1.1.2, hk.1.2⟩

lemma same_event_key_type_ne {a b : OrderEvent} (h : a.event_type ≠ b.event_type) :
    same_event_key a b = false := by
  rw [Bool.eq_false_iff]
  intro hk
  simp only [same_event_key, Bool.and_eq_true, beq_iff_eq] at hk
  exact h hk.2

lemma append_oe_fresh (tbl : List OrderEvent) (e : OrderEvent)
    (h : ∀ r ∈ tbl, same_event_key r e = false) : append_oe tbl e = tbl ++ [e] := by
  have hany : tbl.any (fun r => same_event_key r e) = false := by
    rw [List.any_eq_false]
    intro r hr
    simp [h r hr]
  unfold append_oe append_order_event order_events_insert
  simp [hany]

lemma close_trade_events (env : Env) (st : StratSettings) (db : Db) (tid : ℤ)
    (qty : ℚ) (xp pnl : Option ℚ) (code : ReasonCode) (creason : String) :
    (close_trade_and_train env st db tid qty xp pnl code creason).order_events
      = db.order_events := by
  unfold close_trade_and_train write_system_config
  rcases hrow : (if 0 < tid then db.trade_logs.get? (tid - 1).toNat else none) with _ | r
  · simp [hrow]
  · simp only [hrow]
    split_ifs <;> simp

lemma close_trade_snapshots (env : Env) (st : StratSettings) (db : Db) (tid : ℤ)
    (qty : ℚ) (xp pnl : Option ℚ) (code : ReasonCode) (creason : String) :
    (close_trade_and_train env st db tid qty xp pnl code creason).position_snapshots
      = db.position_snapshots := by
  unfold close_trade_and_train write_system_config
  rcases hrow : (if 0 < tid then db.trade_logs.get? (tid - 1).toNat else none) with _ | r
  · simp [hrow]
  · simp only [hrow]
    split_ifs <;> simp

lemma last_snapshot_append_self (l : List PosSnap) (p : PosSnap) :
    last_snapshot (l ++ [p]) p.symbol = some p := by
  unfold last_snapshot
  rw [List.filter_append]
  simp

lemma stop_created_type (env : Env) (st : StratSettings) (symbol : String)
    (latest : LatestBar) (bq : ℚ) (res : OrderResult) :
    same_event_key (stop_created_event env st symbol latest bq)
      (stop_terminal_event env st symbol latest bq res) = false := by
  apply same_event_key_type_ne
  simp only [stop_created_event, stop_terminal_event]
  split_ifs <;> simp

lemma stop_loss_flow_spec (env : Env) (st : StratSettings) (db : Db) (cnt : ℤ)
    (symbol : String) (latest : LatestBar) (pos : Option PosSnap) (bq : ℚ) (res : OrderResult)
    (hplace : env.place_market_order symbol Side.SELL bq
        (make_client_order_id env.sha1_hex actSl symbol latest.open_time_ms tagSb 64) = .ok res)
    (hfresh : ∀ r ∈ db.order_events,
        ¬(r.exchange = st.exchange ∧ r.symbol = symbol ∧ r.client_order_id
            = make_client_order_id env.sha1_hex actSl symbol latest.open_time_ms tagSb 64)) :
    ∃ (db' : Db) (tid : ℤ),
      stop_loss_flow env st db cnt symbol latest pos bq = .ok db' (max 0 (cnt - 1))
      ∧ db'.order_events = db.order_events
          ++ [stop_created_event env st symbol latest bq,
              stop_terminal_event env st symbol latest bq res]
      ∧ last_snapshot db'.position_snapshots symbol
          = some ⟨symbol, 0, none,
              ⟨none, none, some tid, some noteStopLoss, some env.trace_id, none, none⟩⟩ := by
  have hfr1 : append_oe db.order_events (stop_created_event env st symbol latest bq)
      = db.order_events ++ [stop_created_event env st symbol latest bq] := by
    apply append_oe_fresh
    intro r hr
    exact same_event_key_eq_false (hfresh r hr)
  have hfr2 : append_oe (db.order_events ++ [stop_created_event env st symbol latest bq])
      (stop_terminal_event env st symbol latest bq res)
      = db.order_events ++ [stop_created_event env st symbol latest bq,
          stop_terminal_event env st symbol latest bq res] := by
    rw [append_oe_fresh]
    · simp
    · intro r hr
      rcases List.mem_append.mp hr with hr | hr
      · exact same_event_key_eq_false (hfresh r hr)
      · rcases List.mem_singleton.mp hr with rfl
        exact stop_created_type env st symbol latest bq res
  simp only [stop_created_event, stop_terminal_event] at hfr1 hfr2
  simp only [stop_loss_flow, oe, hplace, stop_created_event, stop_terminal_event]
  refine ⟨_, find_open_trade_id
      (oe (oe db (stop_created_event env st symbol latest bq))
        (stop_terminal_event env st symbol latest bq res)) symbol
      (match pos with | some p => p.meta | none => meta_empty), rfl, ?_, ?_⟩
  · rw [apply_ite (fun d : Db => d.order_events)]
    simp only [close_trade_events, ite_self, save_position, hfr1, hfr2]
  · rw [apply_ite (fun d : Db => d.position_snapshots)]
    simp only [close_trade_snapshots, ite_self, save_position]
    exact last_snapshot_append_self _ _

lemma symbol_step_stop_loss (env : Env) (st : StratSettings) (selected : List String)
    (selMeta : String → Option CandMeta) (db : Db) (cnt : ℤ) (symbol : String)
    (latest : LatestBar) (pos : PosSnap) (ae : ℚ)
    (hlock : env.locks symbol = true)
    (hlatest : db.latest symbol st.interval_minutes = some latest)
    (hpos : last_snapshot db.position_snapshots symbol = some pos)
    (hbq : 0 < pos.base_qty)
    (hae : pos.avg_entry_price = some ae)
    (hem : ¬get_flag db emergencyKey falseLit = trueLit)
    (hstop : latest.close_price ≤ or_default_q pos.meta.stop_price
        (ae * (1 - or_default_q pos.meta.stop_dist_pct st.hard_stop_loss_pct))) :
    symbol_step env st selected selMeta db cnt symbol
      = stop_loss_flow env st db cnt symbol latest (some pos) pos.base_qty := by
  simp [symbol_step, hlock, hlatest, hpos, hae, hem, hbq, hstop]

/-- C4: in a tick with the emergency flag off, for a symbol whose latest
snapshot has `base_qty > 0`, when the latest cached close is `≤` the stop price
(taken from the snapshot meta, or recomputed as `avg_entry·(1 − stop_dist_pct)`
when absent — with `stop_dist_pct` itself defaulting to `HARD_STOP_LOSS_PCT`),
the per-symbol step emits exactly the stop-loss SELL pair (CREATED with reason
code STOP_LOSS, then the terminal event) and nothing else — in particular no
STRATEGY_SIGNAL event, i.e. the Setup-B evaluation never runs for the symbol —
and the newest snapshot afterwards has `base_qty = 0`.  The comparison is `≤`:
the witness below fires at exact equality `last_close = stop_price`. -/
theorem C4_stop_loss_precedence (env : Env) (st : StratSettings) (selected : List String)
    (selMeta : String → Option CandMeta) (db : Db) (cnt : ℤ) (symbol : String)
    (latest : LatestBar) (pos : PosSnap) (ae : ℚ) (res : OrderResult)
    (hlock : env.locks symbol = true)
    (hlatest : db.latest symbol st.interval_minutes = some latest)
    (hpos : last_snapshot db.position_snapshots symbol = some pos)
    (hbq : 0 < pos.base_qty)
    (hae : pos.avg_entry_price = some ae)
    (hem : ¬get_flag db emergencyKey falseLit = trueLit)
    (hstop : latest.close_price ≤ or_default_q pos.meta.stop_price
        (ae * (1 - or_default_q pos.meta.stop_dist_pct st.hard_stop_loss_pct)))
    (hplace : env.place_market_order symbol Side.SELL pos.base_qty
        (make_client_order_id env.sha1_hex actSl symbol latest.open_time_ms tagSb 64) = .ok res)
    (hfresh : ∀ r ∈ db.order_events,
        ¬(r.exchange = st.exchange ∧ r.symbol = symbol ∧ r.client_order_id
            = make_client_order_id env.sha1_hex actSl symbol latest.open_time_ms tagSb 64)) :
    ∃ (db' : Db) (tid : ℤ),
      symbol_step env st selected selMeta db cnt symbol = .ok db' (max 0 (cnt - 1))
      ∧ db'.order_events = db.order_events
          ++ [stop_created_event env st symbol latest pos.base_qty,
              stop_terminal_event env st symbol latest pos.base_qty res]
      ∧ last_snapshot db'.position_snapshots symbol
          = some ⟨symbol, 0, none,
              ⟨none, none, some tid, some noteStopLoss, some env.trace_id, none, none⟩⟩ := by
  rw [symbol_step_stop_loss env st selected selMeta db cnt symbol latest pos ae
    hlock hlatest hpos hbq hae hem hstop]
  exact stop_loss_flow_spec env st db cnt symbol latest (some pos) pos.base_qty res hplace hfresh

/-- Witness for C4 at a concrete boundary input (`last_close = stop_price = 97`). -/
theorem C4_stop_loss_precedence_witness :
    latest_97.close_price = 97
    ∧ (∃ (db' : Db) (tid : ℤ),
        symbol_step env0 st0 [] (fun _ => none) db_c4 0 sBTC = .ok db' (max 0 (0 - 1))
        ∧ db'.order_events = db_c4.order_events
            ++ [stop_created_event env0 st0 sBTC latest_97 snap_c4.base_qty,
                stop_terminal_event env0 st0 sBTC latest_97 snap_c4.base_qty res_filled]
        ∧ last_snapshot db'.position_snapshots sBTC
            = some ⟨sBTC, 0, none,
                ⟨none, none, some tid, some noteStopLoss, some env0.trace_id, none, none⟩⟩) :=
  ⟨rfl,
   C4_stop_loss_precedence env0 st0 [] (fun _ => none) db_c4 0 sBTC latest_97 snap_c4 100
     res_filled rfl rfl rfl (by decide) rfl (by decide) (by decide) rfl (by simp [db_c4])⟩

/-! ### C5 support lemmas: the event-extension order, `append_oe` cases -/

lemma events_extended_refl (sel : List String) (l : List OrderEvent) :
    events_extended sel 0 l l :=
  ⟨[], (List.append_nil l).symm, by simp, by simp⟩

lemma events_extended_trans {sel : List String} {k1 k2 : ℕ} {l1 l2 l3 : List OrderEvent}
    (h1 : events_extended sel k1 l1 l2) (h2 : events_extended sel k2 l2 l3) :
    events_extended sel (k1 + k2) l1 l3 := by
  obtain ⟨t1, rfl, hb1, hm1⟩ := h1
  obtain ⟨t2, rfl, hb2, hm2⟩ := h2
  refine ⟨t1 ++ t2, List.append_assoc l1 t1 t2, ?_, ?_⟩
  · rw [List.filter_append, List.length_append]
    exact Nat.add_le_add hb1 hb2
  · intro e he hb
    rcases List.mem_append.mp he with h | h
    · exact hm1 e h hb
    · exact hm2 e h hb

lemma events_extended_mono {sel : List String} {k1 k2 : ℕ} {l1 l2 : List OrderEvent}
    (h : events_extended sel k1 l1 l2) (hk : k1 ≤ k2) :
    events_extended sel k2 l1 l2 := by
  obtain ⟨t, h1, h2, h3⟩ := h
  exact ⟨t, h1, le_trans h2 hk, h3⟩

lemma append_oe_of_ok (tbl tbl' : List OrderEvent) (e : OrderEvent)
    (h : append_order_event tbl e = .ok tbl') : append_oe tbl e = tbl' := by
  unfold append_oe
  rw [h]

lemma append_order_event_no_dup (tbl : List OrderEvent) (e : OrderEvent)
    (h : tbl.any (fun r => same_event_key r e) = false) :
    append_order_event tbl e = .ok (tbl ++ [e]) := by
  have hins : order_events_insert tbl e = .ok (tbl ++ [e]) := by
    simp [order_events_insert, h]
  unfold append_order_event
  rw [hins]

lemma append_oe_cases (tbl : List OrderEvent) (e : OrderEvent) :
    append_oe tbl e = tbl ∨ append_oe tbl e = tbl ++ [e] := by
  by_cases h : tbl.any (fun r => same_event_key r e) = true
  · exact .inl (append_oe_of_ok tbl tbl e (append_order_event_dup tbl e h))
  · exact .inr (append_oe_of_ok tbl (tbl ++ [e]) e
      (append_order_event_no_dup tbl e (by simpa using h)))

lemma events_extended_oe_not (sel : List String) (tbl : List OrderEvent) (e : OrderEvent)
    (h : is_buy_created e = false) :
    events_extended sel 0 tbl (append_oe tbl e) := by
  rcases append_oe_cases tbl e with hc | hc
  · rw [hc]
    exact events_extended_refl sel tbl
  · rw [hc]
    refine ⟨[e], rfl, ?_, ?_⟩
    · simp [List.filter_cons, h]
    · intro x hx hb
      rcases List.mem_singleton.mp hx with rfl
      rw [h] at hb
      cases hb

lemma events_extended_oe_buy (sel : List String) (tbl : List OrderEvent) (e : OrderEvent)
    (h : sel.contains e.symbol = true) :
    events_extended sel 1 tbl (append_oe tbl e) := by
  rcases append_oe_cases tbl e with hc | hc
  · rw [hc]
    exact events_extended_mono (events_extended_refl sel tbl) (Nat.zero_le 1)
  · rw [hc]
    refine ⟨[e], rfl, ?_, ?_⟩
    · exact le_trans (List.length_filter_le _ _) (by simp)
    · intro x hx _
      rcases List.mem_singleton.mp hx with rfl
      exact h

lemma set_flag_events (db : Db) (k v : String) :
    (set_flag db k v).order_events = db.order_events := rfl

lemma emergency_flow_events (sel : List String) (env : Env) (st : StratSettings) (db : Db)
    (cnt : ℤ) (symbol : String) (latest : LatestBar) (pos : Option PosSnap) (bq : ℚ) :
    events_extended sel 0 db.order_events
      (emergency_flow env st db cnt symbol latest pos bq).dbOut.order_events := by
  have h1 : is_buy_created (emergency_created_event env st symbol latest bq) = false := rfl
  rcases hp : env.place_market_order symbol Side.SELL bq
      (make_client_order_id env.sha1_hex actExit symbol latest.open_time_ms tagSb 64)
    with m | res
  · simp only [emergency_flow, oe, hp, StepRes.dbOut]
    exact events_extended_oe_not sel db.order_events _ h1
  · have h2 : is_buy_created (emergency_terminal_event env st symbol latest bq res) = false := by
      simp only [is_buy_created, emergency_terminal_event]
      split <;> rfl
    simp only [emergency_flow, oe, hp, StepRes.dbOut]
    rw [apply_ite (fun d : Db => d.order_events)]
    simp only [close_trade_events, ite_self, save_position]
    exact events_extended_trans (events_extended_oe_not sel db.order_events _ h1)
      (events_extended_oe_not sel _ _ h2)

lemma stop_loss_flow_events (sel : List String) (env : Env) (st : StratSettings) (db : Db)
    (cnt : ℤ) (symbol : String) (latest : LatestBar) (pos : Option PosSnap) (bq : ℚ) :
    events_extended sel 0 db.order_events
      (stop_loss_flow env st db cnt symbol latest pos bq).dbOut.order_events := by
  have h1 : is_buy_created (stop_created_event env st symbol latest bq) = false := rfl
  rcases hp : env.place_market_order symbol Side.SELL bq
      (make_client_order_id env.sha1_hex actSl symbol latest.open_time_ms tagSb 64)
    with m | res
  · simp only [stop_loss_flow, oe, hp, StepRes.dbOut]
    exact events_extended_oe_not sel db.order_events _ h1
  · have h2 : is_buy_created (stop_terminal_event env st symbol latest bq res) = false := by
      simp only [is_buy_created, stop_terminal_event]
      split <;> rfl
    simp only [stop_loss_flow, oe, hp, StepRes.dbOut]
    rw [apply_ite (fun d : Db => d.order_events)]
    simp only [close_trade_events, ite_self, save_position]
    exact events_extended_trans (events_extended_oe_not sel db.order_events _ h1)
      (events_extended_oe_not sel _ _ h2)

lemma sell_exit_flow_events (sel : List String) (env : Env) (st : StratSettings) (db : Db)
    (cnt : ℤ) (symbol : String) (latest : LatestBar) (pos : Option PosSnap) (bq : ℚ) :
    events_extended sel 0 db.order_events
      (sell_exit_flow env st db cnt symbol latest pos bq).dbOut.order_events := by
  have h1 : is_buy_created (sell_created_event env st symbol latest bq) = false := rfl
  rcases hlev : env.set_leverage_and_margin_mode symbol
      (leverage_from_score st.auto_leverage_min st.auto_leverage_max
        (compute_robot_score latest.toRaw Side.SELL)) with m | u
  · simp only [sell_exit_flow, hlev, StepRes.dbOut]
    exact events_extended_refl _ _
  · rcases hp : env.place_market_order symbol Side.SELL bq
        (make_client_order_id env.sha1_hex actSell symbol latest.open_time_ms tagSb 64)
      with m | res
    · simp only [sell_exit_flow, oe, hlev, hp, StepRes.dbOut]
      exact events_extended_oe_not sel db.order_events _ h1
    · have h2 : is_buy_created (sell_terminal_event env st symbol latest bq res) = false := by
        simp only [is_buy_created, sell_terminal_event]
        split <;> rfl
      simp only [sell_exit_flow, oe, hlev, hp, StepRes.dbOut]
      rw [apply_ite (fun d : Db => d.order_events)]
      simp only [close_trade_events, ite_self, save_position]
      exact events_extended_trans (events_extended_oe_not sel db.order_events _ h1)
        (events_extended_oe_not sel _ _ h2)

lemma entry_flow_events (sel : List String) (env : Env) (st : StratSettings) (db : Db)
    (cnt : ℤ) (symbol : String) (latest : LatestBar) (last_price score : ℚ)
    (ai_prob : Option ℚ) (combined_score : ℚ) (features_x : List ℚ) (lev : ℤ) (qty : ℚ)
    (hsel : sel.contains symbol = true) :
    events_extended sel 1 db.order_events
      (entry_flow env st db cnt symbol latest last_price score ai_prob combined_score
        features_x lev qty).dbOut.order_events := by
  have h1 : sel.contains (entry_created_event env st symbol latest qty).symbol = true := hsel
  rcases hlev : env.set_leverage_and_margin_mode symbol lev with m | u
  · simp only [entry_flow, hlev, StepRes.dbOut]
    exact events_extended_mono (events_extended_refl _ _) (Nat.zero_le 1)
  · rcases hp : env.place_market_order symbol Side.BUY qty
        (make_client_order_id env.sha1_hex actBuy symbol latest.open_time_ms tagSb 64)
      with m | res
    · simp only [entry_flow, oe, hlev, hp, StepRes.dbOut, open_trade_log]
      exact events_extended_oe_buy sel _ _ h1
    · have h2 : is_buy_created (entry_terminal_event env st symbol latest qty res) = false := by
        simp only [is_buy_created, entry_terminal_event]
        split <;> rfl
      simp only [entry_flow, oe, hlev, hp, StepRes.dbOut, open_trade_log, save_position]
      exact events_extended_trans (events_extended_oe_buy sel _ _ h1)
        (events_extended_oe_not sel _ _ h2)

lemma signal_branch_events (env : Env) (st : StratSettings) (selected : List String)
    (selMeta : String → Option CandMeta) (db : Db) (cnt : ℤ) (symbol : String)
    (latest : LatestBar) (pos : Option PosSnap) (bq lp : ℚ) :
    events_extended selected (cond (selected.contains symbol) 1 0)
      db.order_events
      (signal_branch env st selected selMeta db cnt symbol latest pos
        bq lp).dbOut.order_events := by
  by_cases hc : selected.contains symbol = true
  · rw [hc]
    simp only [signal_branch]
    split_ifs
    all_goals first
      | exact absurd (by assumption : selected.contains symbol = false) (by rw [hc]; simp)
      | exact entry_flow_events selected env st db cnt symbol _ _ _ _ _ _ _ _ hc
      | exact events_extended_mono
          (sell_exit_flow_events selected env st db cnt symbol latest pos bq) (Nat.zero_le _)
      | exact events_extended_mono (events_extended_refl _ _) (Nat.zero_le _)
  · have hcf : selected.contains symbol = false := by
      revert hc
      cases selected.contains symbol <;> simp
    rw [hcf]
    simp only [signal_branch]
    split_ifs
    all_goals first
      | exact absurd hcf (by assumption : ¬selected.contains symbol = false)
      | exact events_extended_mono
          (sell_exit_flow_events selected env st db cnt symbol latest pos bq) (Nat.zero_le _)
      | exact events_extended_mono (events_extended_refl _ _) (Nat.zero_le _)

lemma symbol_step_emergency (env : Env) (st : StratSettings) (selected : List String)
    (selMeta : String → Option CandMeta) (db : Db) (cnt : ℤ) (symbol : String)
    (latest : LatestBar) (pos : PosSnap)
    (hlock : env.locks symbol = true)
    (hlatest : db.latest symbol st.interval_minutes = some latest)
    (hpos : last_snapshot db.position_snapshots symbol = some pos)
    (hbq : 0 < pos.base_qty)
    (hem : get_flag db emergencyKey falseLit = trueLit) :
    symbol_step env st selected selMeta db cnt symbol
      = emergency_flow env st db cnt symbol latest (some pos) pos.base_qty := by
  simp [symbol_step, hlock, hlatest, hpos, hbq, hem]

lemma symbol_step_events (env : Env) (st : StratSettings) (selected : List String)
    (selMeta : String → Option CandMeta) (db : Db) (cnt : ℤ) (symbol : String) :
    events_extended selected (cond (selected.contains symbol) 1 0)
      db.order_events
      (symbol_step env st selected selMeta db cnt symbol).dbOut.order_events := by
  by_cases hl : env.locks symbol = false
  · simp only [symbol_step, if_pos hl, StepRes.dbOut]
    exact events_extended_mono (events_extended_refl _ _) (Nat.zero_le _)
  · simp only [symbol_step, if_neg hl]
    rcases hlb : db.latest symbol st.interval_minutes with _ | latest
    · simp only [hlb, StepRes.dbOut]
      exact events_extended_mono (events_extended_refl _ _) (Nat.zero_le _)
    · simp only [hlb]
      rcases hpos : last_snapshot db.position_snapshots symbol with _ | p
      · simp only [hpos]
        split_ifs
        · exact events_extended_mono
            (emergency_flow_events selected env st db cnt symbol _ _ _) (Nat.zero_le _)
        · exact events_extended_mono (events_extended_refl _ _) (Nat.zero_le _)
        · exact signal_branch_events env st selected selMeta db cnt symbol _ _ _ _
        · exact signal_branch_events env st selected selMeta db cnt symbol _ _ _ _
      · simp only [hpos]
        rcases hae : p.avg_entry_price with _ | ae
        · simp only [hae]
          split_ifs
          · exact events_extended_mono
              (emergency_flow_events selected env st db cnt symbol _ _ _) (Nat.zero_le _)
          · exact events_extended_mono (events_extended_refl _ _) (Nat.zero_le _)
          · exact signal_branch_events env st selected selMeta db cnt symbol _ _ _ _
          · exact signal_branch_events env st selected selMeta db cnt symbol _ _ _ _
        · simp only [hae]
          split_ifs
          · exact events_extended_mono
              (emergency_flow_events selected env st db cnt symbol _ _ _) (Nat.zero_le _)
          · exact events_extended_mono (events_extended_refl _ _) (Nat.zero_le _)
          · exact events_extended_mono
              (stop_loss_flow_events selected env st db cnt symbol _ _ _) (Nat.zero_le _)
          · exact signal_branch_events env st selected selMeta db cnt symbol _ _ _ _
          · exact signal_branch_events env st selected selMeta db cnt symbol _ _ _ _

lemma run_symbols_events (env : Env) (st : StratSettings) (selected : List String)
    (selMeta : String → Option CandMeta) (syms : List String) :
    ∀ (db : Db) (cnt : ℤ),
      events_extended selected
        ((syms.filter (fun s => selected.contains s)).length)
        db.order_events
        (run_symbols env st selected selMeta db cnt syms).dbOut.order_events := by
  induction syms with
  | nil =>
    intro db cnt
    simp only [run_symbols, StepRes.dbOut, List.filter_nil, List.length_nil]
    exact events_extended_refl _ _
  | cons s rest ih =>
    intro db cnt
    simp only [run_symbols]
    have h1 := symbol_step_events env st selected selMeta db cnt s
    rcases hstep : symbol_step env st selected selMeta db cnt s with ⟨db2, cnt2⟩ | ⟨m, db2, cnt2⟩
    · rw [hstep] at h1
      simp only [StepRes.dbOut] at h1
      simp only [hstep]
      refine events_extended_mono (events_extended_trans h1 (ih db2 cnt2)) ?_
      by_cases hc : s ∈ selected
      · have hb : selected.contains s = true := by simpa using hc
        simp only [List.filter_cons, hb, if_true, List.length_cons, hb, cond_true]
        omega
      · have hb : selected.contains s = false := by simpa using hc
        simp only [List.filter_cons, hb, Bool.false_eq_true, if_false, cond_false]
        omega
    · rw [hstep] at h1
      simp only [StepRes.dbOut] at h1
      simp only [hstep]
      refine events_extended_mono h1 ?_
      by_cases hc : s ∈ selected
      · have hb : selected.contains s = true := by simpa using hc
        simp only [List.filter_cons, hb, if_true, List.length_cons, cond_true]
        omega
      · have hb : selected.contains s = false := by simpa using hc
        simp only [List.filter_cons, hb, Bool.false_eq_true, if_false, cond_false]
        omega

lemma reconcile_one_events (sel : List String) (env : Env) (ex : String) (db : Db)
    (r : OrderEvent) :
    events_extended sel 0 db.order_events (reconcile_one env ex db r).order_events := by
  rcases hgs : env.get_order_status r.symbol r.client_order_id r.exchange_order_id with m | stt
  · simp only [reconcile_one, hgs]
    exact events_extended_refl _ _
  · simp only [reconcile_one, hgs, oe]
    split_ifs
    all_goals first
      | refine events_extended_trans (events_extended_oe_not _ _ _ ?_)
          (events_extended_oe_not _ _ _ ?_) <;> rfl
      | refine events_extended_oe_not _ _ _ ?_ <;> rfl

lemma reconcile_fold_events (sel : List String) (env : Env) (ex : String) :
    ∀ (l : List OrderEvent) (db : Db),
      events_extended sel 0 db.order_events
        ((l.foldl (reconcile_one env ex) db).order_events) := by
  intro l
  induction l with
  | nil =>
    intro db
    exact events_extended_refl _ _
  | cons r rest ih =>
    intro db
    simp only [List.foldl_cons]
    exact events_extended_trans (reconcile_one_events sel env ex db r)
      (ih (reconcile_one env ex db r))

lemma reconcile_events (sel : List String) (env : Env) (ex : String) (db : Db) :
    events_extended sel 0 db.order_events (reconcile_stale_orders env ex db).order_events :=
  reconcile_fold_events sel env ex env.stale_rows db

lemma reconcile_one_snapshots (env : Env) (ex : String) (db : Db) (r : OrderEvent) :
    (reconcile_one env ex db r).position_snapshots = db.position_snapshots := by
  rcases hgs : env.get_order_status r.symbol r.client_order_id r.exchange_order_id with m | stt
  · simp only [reconcile_one, hgs]
  · simp only [reconcile_one, hgs, oe]
    split_ifs <;> rfl

lemma reconcile_fold_snapshots (env : Env) (ex : String) :
    ∀ (l : List OrderEvent) (db : Db),
      (l.foldl (reconcile_one env ex) db).position_snapshots = db.position_snapshots := by
  intro l
  induction l with
  | nil =>
    intro db
    rfl
  | cons r rest ih =>
    intro db
    simp only [List.foldl_cons]
    rw [ih (reconcile_one env ex db r), reconcile_one_snapshots]

lemma open_count_congr (db1 db2 : Db) (syms : List String)
    (h : db1.position_snapshots = db2.position_snapshots) :
    open_count db1 syms = open_count db2 syms := by
  simp only [open_count, latest_qty, last_snapshot, h]

lemma select_syms_length_le (env : Env) (st : StratSettings) (db : Db) :
    (select_syms env st db).length
      ≤ (max 0 (st.max_concurrent_positions - (open_count db st.symbols : ℤ))).toNat := by
  simp only [select_syms, select_candidates, List.length_map]
  split_ifs with h
  · exact List.length_take_le _ _
  · exact Nat.zero_le _

lemma filter_contains_length_le (syms sel : List String) (hnd : syms.Nodup) :
    (syms.filter (fun s => sel.contains s)).length ≤ sel.length := by
  have hsub : (syms.filter (fun s => sel.contains s)) ⊆ sel := by
    intro x hx
    have hmem := List.of_mem_filter hx
    simpa using hmem
  exact (List.subperm_of_subset (hnd.filter _) hsub).length_le

lemma strategy_tick_events (env : Env) (st : StratSettings) (db : Db)
    (hnd : st.symbols.Nodup) :
    events_extended (select_syms env st (reconcile_stale_orders env st.exchange db))
      ((max 0 (st.max_concurrent_positions - (open_count db st.symbols : ℤ))).toNat)
      db.order_events (strategy_tick env st db).order_events := by
  by_cases hh : get_flag db haltKey falseLit = trueLit
  · simp only [strategy_tick, if_pos hh]
    exact events_extended_mono (events_extended_refl _ _) (Nat.zero_le _)
  · simp only [strategy_tick, if_neg hh]
    set db1 := reconcile_stale_orders env st.exchange db with hdb1
    set selected := select_syms env st db1 with hsel
    have hrec : events_extended selected 0 db.order_events db1.order_events := by
      rw [hdb1]
      exact reconcile_events selected env st.exchange db
    have hsnap : db1.position_snapshots = db.position_snapshots := by
      rw [hdb1]
      exact reconcile_fold_snapshots env st.exchange env.stale_rows db
    have hcnt : open_count db1 st.symbols = open_count db st.symbols :=
      open_count_congr db1 db st.symbols hsnap
    have hfb : (st.symbols.filter (fun s => selected.contains s)).length
        ≤ (max 0 (st.max_concurrent_positions - (open_count db st.symbols : ℤ))).toNat := by
      have h2 := select_syms_length_le env st db1
      rw [← hsel, hcnt] at h2
      exact le_trans (filter_contains_length_le st.symbols selected hnd) h2
    have hrun := run_symbols_events env st selected (sel_meta env st db1) st.symbols db1
      ((open_count db1 st.symbols : ℤ))
    rcases hrs : run_symbols env st selected (sel_meta env st db1) db1
        ((open_count db1 st.symbols : ℤ)) st.symbols with ⟨db2, cnt2⟩ | ⟨m, db2, cnt2⟩
    · rw [hrs] at hrun
      simp only [StepRes.dbOut] at hrun
      simp only [hrs]
      rw [apply_ite (fun d : Db => d.order_events)]
      simp only [set_flag_events, ite_self]
      exact events_extended_mono (events_extended_trans hrec hrun) (by simpa using hfb)
    · rw [hrs] at hrun
      simp only [StepRes.dbOut] at hrun
      simp only [hrs]
      exact events_extended_mono (events_extended_trans hrec hrun) (by simpa using hfb)

/-- C5: writing `open_cnt` for the number of configured symbols whose latest
`position_snapshots` row has `base_qty > 0` at the start of the tick, and
assuming the configured symbol list has no duplicates (the settings loader
dedupes it), a tick appends at most
`max 0 (MAX_CONCURRENT_POSITIONS − open_cnt)` new BUY CREATED rows to
`order_events`, and every such row is for a symbol in `selected_open_symbols`
(the highest-combined-score candidates cut to the free slots, computed by
`select_syms`).  With `MAX_CONCURRENT_POSITIONS = 0` the tick appends no BUY
CREATED row at all, while the per-symbol dispatch to the stop-loss flow and to
the emergency-exit flow is unchanged (both conjuncts hold for every
`MAX_CONCURRENT_POSITIONS`, in particular for 0): their SELL flows still
execute. -/
theorem C5_concurrency_cap (env : Env) (st : StratSettings) (db : Db)
    (hnd : st.symbols.Nodup) :
    (∃ t, (strategy_tick env st db).order_events = db.order_events ++ t
      ∧ (t.filter is_buy_created).length
          ≤ (max 0 (st.max_concurrent_positions - (open_count db st.symbols : ℤ))).toNat
      ∧ ∀ e ∈ t, is_buy_created e = true →
          (select_syms env st (reconcile_stale_orders env st.exchange db)).contains e.symbol
            = true)
    ∧ (st.max_concurrent_positions = 0 →
        buy_created_count (strategy_tick env st db).order_events
          = buy_created_count db.order_events)
    ∧ (∀ (selected : List String) (selMeta : String → Option CandMeta) (db2 : Db) (cnt : ℤ)
         (symbol : String) (latest : LatestBar) (pos : PosSnap) (ae : ℚ),
        env.locks symbol = true →
        db2.latest symbol st.interval_minutes = some latest →
        last_snapshot db2.position_snapshots symbol = some pos →
        0 < pos.base_qty →
        pos.avg_entry_price = some ae →
        ¬get_flag db2 emergencyKey falseLit = trueLit →
        latest.close_price ≤ or_default_q pos.meta.stop_price
          (ae * (1 - or_default_q pos.meta.stop_dist_pct st.hard_stop_loss_pct)) →
        symbol_step env st selected selMeta db2 cnt symbol
          = stop_loss_flow env st db2 cnt symbol latest (some pos) pos.base_qty)
    ∧ (∀ (selected : List String) (selMeta : String → Option CandMeta) (db2 : Db) (cnt : ℤ)
         (symbol : String) (latest : LatestBar) (pos : PosSnap),
        env.locks symbol = true →
        db2.latest symbol st.interval_minutes = some latest →
        last_snapshot db2.position_snapshots symbol = some pos →
        0 < pos.base_qty →
        get_flag db2 emergencyKey falseLit = trueLit →
        symbol_step env st selected selMeta db2 cnt symbol
          = emergency_flow env st db2 cnt symbol latest (some pos) pos.base_qty) := by
  have hmain := strategy_tick_events env st db hnd
  unfold events_extended at hmain
  obtain ⟨t, ht, hb, hm⟩ := hmain
  refine ⟨⟨t, ht, hb, hm⟩, ?_, ?_, ?_⟩
  · intro h0
    have hcnt0 : (max 0 (st.max_concurrent_positions
        - (open_count db st.symbols : ℤ))).toNat = 0 := by
      rw [h0, Int.toNat_eq_zero]
      exact max_le le_rfl (sub_nonpos.mpr (Int.natCast_nonneg _))
    have hb0 : (t.filter is_buy_created).length = 0 := Nat.le_zero.mp (hcnt0 ▸ hb)
    rw [ht]
    simp only [buy_created_count, List.filter_append, List.length_append, hb0, Nat.add_zero]
  · intro selected selMeta db2 cnt symbol latest pos ae h1 h2 h3 h4 h5 h6 h7
    exact symbol_step_stop_loss env st selected selMeta db2 cnt symbol latest pos ae
      h1 h2 h3 h4 h5 h6 h7
  · intro selected selMeta db2 cnt symbol latest pos h1 h2 h3 h4 h5
    exact symbol_step_emergency env st selected selMeta db2 cnt symbol latest pos
      h1 h2 h3 h4 h5

/-- Witness for C5 at a concrete tick (`db_c2` with one held position and the
emergency flag set, single-symbol configuration). -/
theorem C5_concurrency_cap_witness :
    st0.symbols.Nodup
    ∧ (∃ t, (strategy_tick env0 st0 db_c2).order_events = db_c2.order_events ++ t
        ∧ (t.filter is_buy_created).length
            ≤ (max 0 (st0.max_concurrent_positions
                - (open_count db_c2 st0.symbols : ℤ))).toNat
        ∧ ∀ e ∈ t, is_buy_created e = true →
            (select_syms env0 st0 (reconcile_stale_orders env0 st0.exchange db_c2)).contains
              e.symbol = true) :=
  ⟨by decide, (C5_concurrency_cap env0 st0 db_c2 (by decide)).1⟩

end TradingBot
